import Mathlib

/-!
A shallow embedding of the `irrops` schedule engine
(`src/schedule/schedule.rs` together with the entity model in
`src/flight.rs`, `src/airport.rs`, `src/time.rs` and the aircraft record
used by the engine), and proofs about its claims.

Conventions of the embedding:
* `Time(u64)` is embedded as `Nat` (minute offsets).  The two sites where
  the source subtracts times are analysed separately (truncated `Nat`
  subtraction agrees with `u64` subtraction exactly when no underflow
  occurs, which is proved where needed).
* `Arc<str>` identifiers are embedded as `String`; Rust's `Ord` for `str`
  is byte-wise lexicographic, which for UTF-8 equals code-point
  lexicographic order, embedded below as `idLe`.
* `HashMap<K, V>` values are embedded as functions `K → Option V` (for the
  maps built and mutated inside the algorithms) or as lists of records
  looked up with `List.find?` (for the aircraft/airport tables, whose
  HashMap keys are the `id` fields and are unique in any map).
* `Vec` mutation in place is embedded as pure list transformation; `for`
  loops over vectors become structural recursion or folds in iteration
  order.
* `debug_assert!` checks (`assert_invariants`) do not mutate state; their
  predicates are embedded separately so that theorems can talk about them.
-/

/-- Rust `str` byte-lexicographic order on the code points of two strings
(code-point order equals UTF-8 byte order). -/
def charListLe : List Char → List Char → Bool
  | [], _ => true
  | _ :: _, [] => false
  | c :: cs, d :: ds =>
    if c.toNat < d.toNat then true
    else if d.toNat < c.toNat then false
    else charListLe cs ds

/-- Lexicographic `≤` on identifiers, as Rust `Ord for Arc<str>` compares. -/
def idLe (a b : String) : Bool := charListLe a.data b.data

instance : DecidableRel (fun a b : String => idLe a b = true) :=
  fun a b => inferInstanceAs (Decidable (idLe a b = true))

abbrev AircraftId := String
abbrev AirportId := String
abbrev FlightId := String

/-- `Availability` window of an aircraft (maintenance), optionally pinned to
a location, as used by `Schedule` and constructed in `tests/utils.rs`. -/
structure Availability where
  «from» : Nat
  «to» : Nat
  location_id : Option AirportId
deriving DecidableEq, Repr, Inhabited

/-- The aircraft record used by the engine: id, initial location, and
maintenance windows. -/
structure Aircraft where
  id : AircraftId
  initial_location_id : AirportId
  disruptions : List Availability
deriving DecidableEq, Repr, Inhabited

/-- `Curfew` window of an airport (`src/airport.rs`). -/
structure Curfew where
  «from» : Nat
  «to» : Nat
deriving DecidableEq, Repr, Inhabited

/-- Airport with minimum turnaround time and curfew list (`src/airport.rs`). -/
structure Airport where
  id : AirportId
  mtt : Nat
  disruptions : List Curfew
deriving DecidableEq, Repr, Inhabited

/-- `UnscheduledReason` (`src/flight.rs`). -/
inductive UnscheduledReason where
  | Waiting
  | MaxDelayExceeded
  | AirportCurfew
  | AircraftMaintenance
  | BrokenChain
deriving DecidableEq, Repr, Inhabited

/-- `FlightStatus` (`src/flight.rs`). -/
inductive FlightStatus where
  | Unscheduled (reason : UnscheduledReason)
  | Scheduled
  | Delayed (minutes : Nat)
deriving DecidableEq, Repr, Inhabited

/-- `FlightStatus::is_unscheduled` (`src/flight.rs`). -/
def FlightStatus.is_unscheduled : FlightStatus → Bool
  | .Unscheduled _ => true
  | _ => false

/-- `Flight` (`src/flight.rs`). -/
structure Flight where
  id : FlightId
  aircraft_id : Option AircraftId
  origin_id : AirportId
  destination_id : AirportId
  departure_time : Nat
  arrival_time : Nat
  status : FlightStatus
deriving DecidableEq, Repr, Inhabited

/-- `DisruptionType` (`src/schedule/schedule.rs`). -/
inductive DisruptionType where
  | Delay (flight : FlightId) (delay_by : Nat)
  | Curfew (airport : AirportId) («from» «to» : Nat)
deriving DecidableEq, Repr, Inhabited

/-- `DisruptionReport` (`src/schedule/schedule.rs`). -/
structure DisruptionReport where
  kind : DisruptionType
  affected : List FlightId
  unscheduled : List (FlightId × UnscheduledReason)
  first_break : Option (FlightId × UnscheduledReason)
deriving DecidableEq, Repr, Inhabited

/-- The `Schedule` aggregate.  The Rust `HashMap` fields keyed by the `id`
fields are embedded as record lists looked up by id; `flights_index` is not
stored because flight positions and ids never change after construction, so
the Rust map (id of a flight ↦ its index, built once in `new`) always equals
the recomputed last-index-of map used below. -/
structure Schedule where
  aircraft : List Aircraft
  airports : List Airport
  flights : List Flight
  last_report : Option DisruptionReport
deriving DecidableEq, Repr, Inhabited

/-- `Time::is_overlapping` (`src/time.rs`): half-open interval overlap. -/
def Time.is_overlapping (time window : Nat × Nat) : Bool :=
  decide (time.1 < window.2) && decide (time.2 > window.1)

/-- `MAX_DELAY` policy constant (`src/schedule/schedule.rs`). -/
def MAX_DELAY : Nat := 2000

/-- Index of a flight id in a list of flights.  The Rust `flights_index`
HashMap is built by inserting ids in index order, so for a duplicated id the
last index wins; `last_index_of` reproduces exactly that. -/
def last_index_of (fid : FlightId) : List FlightId → Option Nat
  | [] => none
  | x :: rest =>
    match last_index_of fid rest with
    | some i => some (i + 1)
    | none => if x == fid then some 0 else none

/-- `self.flights_index.get(&flight_id)`. -/
def flights_index (fs : List Flight) (fid : FlightId) : Option Nat :=
  last_index_of fid (fs.map (fun f => f.id))

/-- Positional access `self.flights[i]` (always used in range by the source). -/
def getF (fs : List Flight) (i : Nat) : Flight :=
  fs.getD i default

/-- `Schedule::unschedule` (`src/schedule/schedule.rs`): set the status and
clear the aircraft of the flight with the given id, if known. -/
def unschedule (fs : List Flight) (flight_id : FlightId) (reason : UnscheduledReason) :
    List Flight :=
  match flights_index fs flight_id with
  | some idx => fs.set idx { getF fs idx with status := .Unscheduled reason, aircraft_id := none }
  | none => fs

/-- `Schedule::is_at_wrong_airport` (`src/schedule/schedule.rs`): some
location-pinned availability window lying between the aircraft's ready time
and this departure names a different location. -/
def is_at_wrong_airport (disruptions : List Availability) (departure_time : Nat)
    (ready_at : Option (AirportId × Nat)) : Bool :=
  match ready_at with
  | none => false
  | some (location_id, arrival_time) =>
    ((disruptions.filter (fun d =>
        decide (d.«from» ≥ arrival_time) && decide (d.«to» ≤ departure_time) &&
        d.location_id.isSome)).any
      (fun d => !(some location_id == d.location_id)))

/-- `Schedule::is_airport_closed` (`src/schedule/schedule.rs`): the flight's
origin has a curfew containing `dep_time`, or its destination has a curfew
containing `arr_time` (closed-interval containment here, unlike
`Time::is_overlapping`). -/
def is_airport_closed (airports : List Airport) (flight : Flight)
    (dep_time arr_time : Nat) : Bool :=
  let orig_closed :=
    ((airports.find? (fun a => a.id == flight.origin_id)).map (fun ap =>
      ap.disruptions.any (fun d => decide (d.«from» ≤ dep_time) && decide (d.«to» ≥ dep_time)))).getD
      false
  let dest_closed :=
    ((airports.find? (fun a => a.id == flight.destination_id)).map (fun ap =>
      ap.disruptions.any (fun d => decide (d.«from» ≤ arr_time) && decide (d.«to» ≥ arr_time)))).getD
      false
  orig_closed || dest_closed

/-- `Schedule::violates_aircraft_maintenance` (`src/schedule/schedule.rs`). -/
def violates_aircraft_maintenance (disruptions : List Availability) (dep arr : Nat) : Bool :=
  disruptions.any (fun d => Time.is_overlapping (dep, arr) (d.«from», d.«to»))

/-- `Schedule::get_ready_time` (`src/schedule/schedule.rs`): arrival plus the
destination airport's MTT (0 when the airport is unknown). -/
def get_ready_time (airports : List Airport) (arrival_time : Nat) (airport_id : AirportId) :
    Nat :=
  arrival_time + (((airports.find? (fun a => a.id == airport_id)).map (fun a => a.mtt)).getD 0)

/-- `Schedule::compute_shifted_times` (`src/schedule/schedule.rs`): candidate
shifted (departure, arrival) of a downstream flight given the previous
flight's (possibly shifted) arrival, plus the `is_overlapping` displacement
flag. -/
def compute_shifted_times (airports : List Airport) (flight : Flight) (prev_arrival : Nat) :
    Nat × Nat × Bool :=
  let len := flight.arrival_time - flight.departure_time
  let ready_at := get_ready_time airports prev_arrival flight.origin_id
  let dep_time := max ready_at flight.departure_time
  let arr_time := dep_time + len
  let is_overlapping := decide (flight.departure_time < ready_at)
  (dep_time, arr_time, is_overlapping)

instance : DecidableRel (fun f g : Flight => f.departure_time ≤ g.departure_time) :=
  fun f g => Nat.decLe f.departure_time g.departure_time

/-- `Schedule::new` (`src/schedule/schedule.rs`): sort the flights by
departure time (Rust `sort_by_key` is stable, as is insertion sort). -/
def Schedule.new (aircraft : List Aircraft) (airports : List Airport)
    (flights : List Flight) : Schedule :=
  { aircraft := aircraft
    airports := airports
    flights := List.insertionSort (fun f g => f.departure_time ≤ g.departure_time) flights
    last_report := none }

/-- The propagation loop of `Schedule::apply_delay` (`src/schedule/schedule.rs`,
the `for flight in self.flights.iter_mut().skip(f_id + 1).filter(...)` loop):
walks the flights after the triggering one in vector order, handling only
those assigned to the triggering aircraft; returns the rewritten suffix, the
ids appended to `report.affected`, and the pairs appended to
`report.unscheduled`, in push order.  Rust's `break` on a non-displaced
flight keeps the whole remaining suffix untouched. -/
def propagate (airports : List Airport) (ac_disruptions : List Availability)
    (ac : AircraftId) :
    List Flight → Bool → Nat → AirportId →
      List Flight × List FlightId × List (FlightId × UnscheduledReason)
  | [], _, _, _ => ([], [], [])
  | f :: rest, is_broken, prev_arrival_time, prev_destination_id =>
    if f.aircraft_id == some ac then
      if is_broken then
        let r := propagate airports ac_disruptions ac rest is_broken
          prev_arrival_time prev_destination_id
        (f :: r.1, r.2.1, (f.id, .BrokenChain) :: r.2.2)
      else
        let c := compute_shifted_times airports f prev_arrival_time
        let dep_time := c.1
        let arr_time := c.2.1
        let is_overlapping := c.2.2
        let is_ac_disrupted :=
          violates_aircraft_maintenance ac_disruptions f.departure_time arr_time
        let wrong_airport :=
          is_at_wrong_airport ac_disruptions f.departure_time
            (some (prev_destination_id, prev_arrival_time))
        if is_ac_disrupted || wrong_airport then
          let r := propagate airports ac_disruptions ac rest true
            prev_arrival_time prev_destination_id
          (f :: r.1, r.2.1, (f.id, .AircraftMaintenance) :: r.2.2)
        else if is_airport_closed airports f dep_time arr_time then
          let r := propagate airports ac_disruptions ac rest true
            prev_arrival_time prev_destination_id
          (f :: r.1, r.2.1, (f.id, .AirportCurfew) :: r.2.2)
        else if dep_time - f.departure_time > MAX_DELAY then
          let r := propagate airports ac_disruptions ac rest true
            prev_arrival_time prev_destination_id
          (f :: r.1, r.2.1, (f.id, .MaxDelayExceeded) :: r.2.2)
        else if is_overlapping then
          let f2 := { f with
            status := .Delayed (dep_time - f.departure_time)
            departure_time := dep_time
            arrival_time := arr_time }
          let r := propagate airports ac_disruptions ac rest is_broken
            arr_time f.destination_id
          (f2 :: r.1, f.id :: r.2.1, r.2.2)
        else
          (f :: rest, [], [])
    else
      let r := propagate airports ac_disruptions ac rest is_broken
        prev_arrival_time prev_destination_id
      (f :: r.1, r.2.1, r.2.2)

/-- `Schedule::apply_delay` (`src/schedule/schedule.rs`).  `shift == 0`
returns before recording any report; an unknown flight id skips straight to
the (empty) unschedule pass and records the empty report. -/
def Schedule.apply_delay (s : Schedule) (flight_id : FlightId) (shift : Nat) : Schedule :=
  if shift == 0 then s
  else
    match flights_index s.flights flight_id with
    | none =>
      let report : DisruptionReport :=
        { kind := .Delay flight_id shift
          affected := []
          unscheduled := []
          first_break := none }
      { s with last_report := some report }
    | some f_id =>
      let fl := getF s.flights f_id
      let ac_id := fl.aircraft_id
      let ac_disruptions :=
        (((ac_id.bind (fun i => s.aircraft.find? (fun a => a.id == i))).map
          (fun a => a.disruptions)).getD [])
      -- apply delay to triggering flight (times shift in every branch except
      -- shift > MAX_DELAY; the status set here may be overwritten by the
      -- final unschedule pass)
      let step1 :
          Flight × List FlightId × List (FlightId × UnscheduledReason) × Bool :=
        if shift > MAX_DELAY then
          (fl, [], [(fl.id, .MaxDelayExceeded)], true)
        else
          let orig_dep_time := fl.departure_time
          let flS := { fl with
            departure_time := fl.departure_time + shift
            arrival_time := fl.arrival_time + shift }
          if violates_aircraft_maintenance ac_disruptions orig_dep_time flS.arrival_time then
            (flS, [], [(fl.id, .AircraftMaintenance)], true)
          else if is_airport_closed s.airports flS orig_dep_time flS.arrival_time then
            (flS, [], [(fl.id, .AirportCurfew)], true)
          else
            ({ flS with status := .Delayed shift }, [fl.id], [], false)
      let fl1 := step1.1
      let affected1 := step1.2.1
      let unscheduled1 := step1.2.2.1
      let is_broken1 := step1.2.2.2
      let flights1 := s.flights.set f_id fl1
      -- propagate delay along aircraft chain
      let step2 : List Flight × List FlightId × List (FlightId × UnscheduledReason) :=
        match ac_id with
        | none => (flights1, affected1, unscheduled1)
        | some ac =>
          let r := propagate s.airports ac_disruptions ac (flights1.drop (f_id + 1))
            is_broken1 fl1.arrival_time fl1.destination_id
          (flights1.take (f_id + 1) ++ r.1, affected1 ++ r.2.1, unscheduled1 ++ r.2.2)
      let flights2 := step2.1
      let unscheduled2 := step2.2.2
      let flights3 := unscheduled2.foldl (fun fs e => unschedule fs e.1 e.2) flights2
      let report : DisruptionReport :=
        { kind := .Delay flight_id shift
          affected := step2.2.1
          unscheduled := unscheduled2
          first_break := unscheduled2.head? }
      { s with flights := flights3, last_report := some report }

/-- Replace the (first, and in a HashMap-backed table only) airport entry
with the given id — `self.airports.get_mut(&airport_id)` followed by a
mutation of the found entry. -/
def set_airport : List Airport → Airport → List Airport
  | [], _ => []
  | a :: rest, ap => if a.id == ap.id then ap :: rest else a :: set_airport rest ap

/-- The `broken` fold of `Schedule::apply_curfew`
(`src/schedule/schedule.rs`): per aircraft, the departure time of the first
(in vector order) non-unscheduled flight touching the curfewed airport whose
interval overlaps any of that airport's curfew windows.  `or_insert` keeps
the first value, reproduced by `Option.getD` on the accumulator. -/
def curfew_broken_map (flights : List Flight) (airport_id : AirportId)
    (curfews : List Curfew) : AircraftId → Option Nat :=
  flights.foldl
    (fun acc f =>
      if !f.status.is_unscheduled &&
         (f.origin_id == airport_id || f.destination_id == airport_id) &&
         curfews.any (fun c =>
           Time.is_overlapping (f.departure_time, f.arrival_time) (c.«from», c.«to»)) then
        match f.aircraft_id with
        | some ac_id => fun q =>
            if q == ac_id then some ((acc ac_id).getD f.departure_time) else acc q
        | none => acc
      else acc)
    (fun _ => none)

/-- The marking pass of `Schedule::apply_curfew` (`src/schedule/schedule.rs`):
walk all flights in vector order carrying the per-aircraft `counter` map; a
non-unscheduled flight of an aircraft with a break time, departing at or
after it, is pushed to `report.unscheduled` — the first such flight of each
aircraft (counter just initialised to 0 by `or_insert(0)`) with
`AirportCurfew`, every later one with `BrokenChain`. -/
def curfew_mark (broken : AircraftId → Option Nat) :
    List Flight → (AircraftId → Option Nat) → List (FlightId × UnscheduledReason)
  | [], _ => []
  | f :: rest, counter =>
    if f.status.is_unscheduled then curfew_mark broken rest counter
    else
      match f.aircraft_id with
      | none => curfew_mark broken rest counter
      | some ac_id =>
        match broken ac_id with
        | none => curfew_mark broken rest counter
        | some time =>
          if f.departure_time ≥ time then
            let cnt : Nat := match counter ac_id with | some e => e + 1 | none => 0
            let counter2 := fun q => if q == ac_id then some cnt else counter q
            let reason : UnscheduledReason :=
              if (match counter2 ac_id with | some x => x == 0 | none => true) then
                .AirportCurfew
              else .BrokenChain
            (f.id, reason) :: curfew_mark broken rest counter2
          else curfew_mark broken rest counter

/-- `Schedule::apply_curfew` (`src/schedule/schedule.rs`): append the new
curfew window, compute break points, mark and unschedule every affected
flight, and record the report. -/
def Schedule.apply_curfew (s : Schedule) (airport_id : AirportId)
    («from» «to» : Nat) : Schedule :=
  match s.airports.find? (fun a => a.id == airport_id) with
  | none =>
    let report : DisruptionReport :=
      { kind := .Curfew airport_id «from» «to»
        affected := []
        unscheduled := []
        first_break := none }
    { s with last_report := some report }
  | some airport =>
    let airport2 := { airport with disruptions := airport.disruptions ++ [⟨«from», «to»⟩] }
    let airports2 := set_airport s.airports airport2
    let broken := curfew_broken_map s.flights airport_id airport2.disruptions
    let marked := curfew_mark broken s.flights (fun _ => none)
    let flights2 := marked.foldl (fun fs e => unschedule fs e.1 e.2) s.flights
    let report : DisruptionReport :=
      { kind := .Curfew airport_id «from» «to»
        affected := []
        unscheduled := marked
        first_break := marked.head? }
    { s with airports := airports2, flights := flights2, last_report := some report }

/-- The mutable working maps of `Schedule::assign`
(`src/schedule/schedule.rs`): `current_locations`, `aircraft_by_airport`
and `busy`, embedded as functions (HashMap entry lookups). -/
structure AssignSt where
  locations : AircraftId → Option (AirportId × Nat)
  by_airport : AirportId → List AircraftId
  busy : AircraftId → List (Nat × Nat)

/-- The curfew test of the final `.find(|_| ...)` in `Schedule::assign`:
origin open at departure and destination open at arrival.  It does not
depend on the candidate aircraft. -/
def assign_airport_open (airports : List Airport) (flight : Flight) : Bool :=
  let origin_open :=
    ((airports.find? (fun a => a.id == flight.origin_id)).map (fun ap =>
      !(ap.disruptions.any (fun d =>
        decide (d.«from» ≤ flight.departure_time) &&
        decide (d.«to» ≥ flight.departure_time))))).getD true
  let destination_open :=
    ((airports.find? (fun a => a.id == flight.destination_id)).map (fun ap =>
      !(ap.disruptions.any (fun d =>
        decide (d.«from» ≤ flight.arrival_time) &&
        decide (d.«to» ≥ flight.arrival_time))))).getD true
  origin_open && destination_open

/-- The candidate selection of `Schedule::assign`
(`src/schedule/schedule.rs`): walk the aircraft currently at the flight's
origin airport (already in ascending id order), resolve each id in the
aircraft table, drop those with a maintenance overlap, those at the wrong
airport, those with a conflicting busy interval, and take the first
survivor if the airports are not curfewed. -/
def chosen_aircraft (aircraftL : List Aircraft) (airports : List Airport)
    (st : AssignSt) (flight : Flight) : Option Aircraft :=
  let resolved := (st.by_airport flight.origin_id).filterMap
    (fun ac_id => aircraftL.find? (fun a => a.id == ac_id))
  let not_disrupted := resolved.filter
    (fun a => a.disruptions.all (fun d =>
      !Time.is_overlapping (flight.departure_time, flight.arrival_time)
        (d.«from», d.«to»)))
  let right_airport := not_disrupted.filter
    (fun a => !is_at_wrong_airport a.disruptions flight.departure_time
      (st.locations a.id))
  let not_busy := right_airport.filter
    (fun ac => (st.busy ac.id).all (fun iv =>
      !Time.is_overlapping (flight.departure_time, flight.arrival_time) iv))
  not_busy.find? (fun _ => assign_airport_open airports flight)

/-- The state update of `Schedule::assign` after a successful match: push
the new busy interval, add the aircraft to the destination bucket (re-sorted
as Rust does), remove it from the origin bucket, and move its current
location/ready time to the flight's destination. -/
def assign_update (airports : List Airport) (st : AssignSt) (flight : Flight)
    (aircraft : Aircraft) : AssignSt :=
  let mtt := ((airports.find? (fun a => a.id == flight.destination_id)).map
    (fun ap => ap.mtt)).getD 0
  let busy2 := fun q =>
    if q == aircraft.id then
      st.busy aircraft.id ++ [(flight.departure_time, flight.arrival_time + mtt)]
    else st.busy q
  let by2 := fun q =>
    if q == flight.destination_id then
      List.insertionSort (fun a b : String => idLe a b = true)
        (st.by_airport flight.destination_id ++ [aircraft.id])
    else st.by_airport q
  let by3 := fun q =>
    if q == flight.origin_id then
      (by2 flight.origin_id).filter (fun x => !(x == aircraft.id))
    else by2 q
  let locations2 := fun q =>
    if q == aircraft.id then
      some (flight.destination_id,
        get_ready_time airports flight.arrival_time flight.destination_id)
    else st.locations q
  { locations := locations2, by_airport := by3, busy := busy2 }

/-- The main pass of `Schedule::assign` (`src/schedule/schedule.rs`): walk
the flight vector in order; every flight in `Unscheduled(_)` state is bound
to its chosen aircraft (if any), updating the working maps. -/
def assign_go (aircraftL : List Aircraft) (airports : List Airport) :
    List Flight → AssignSt → List Flight × AssignSt
  | [], st => ([], st)
  | f :: rest, st =>
    if f.status.is_unscheduled then
      match chosen_aircraft aircraftL airports st f with
      | some aircraft =>
        let f2 := { f with aircraft_id := some aircraft.id, status := .Scheduled }
        let st2 := assign_update airports st f aircraft
        let r := assign_go aircraftL airports rest st2
        (f2 :: r.1, r.2)
      | none =>
        let r := assign_go aircraftL airports rest st
        (f :: r.1, r.2)
    else
      let r := assign_go aircraftL airports rest st
      (f :: r.1, r.2)

/-- Initial `current_locations` of `Schedule::assign`: every aircraft at its
initial location at time 0, then overwritten (in vector order) by the
destination and ready time of each non-unscheduled flight carrying an
aircraft id, so the last such flight of each aircraft wins. -/
def assign_locations (aircraftL : List Aircraft) (airports : List Airport)
    (flights : List Flight) : AircraftId → Option (AirportId × Nat) :=
  flights.foldl
    (fun acc f =>
      if !f.status.is_unscheduled then
        match f.aircraft_id with
        | some ac_id => fun q =>
            if q == ac_id then
              some (f.destination_id,
                get_ready_time airports f.arrival_time f.destination_id)
            else acc q
        | none => acc
      else acc)
    (fun q => (aircraftL.find? (fun a => a.id == q)).map
      (fun ac => (ac.initial_location_id, 0)))

/-- Initial `aircraft_by_airport` of `Schedule::assign`: fold the id-sorted
aircraft over their current locations, appending to the bucket of each
aircraft's airport. -/
def assign_buckets (sorted_ids : List AircraftId)
    (loc : AircraftId → Option (AirportId × Nat)) : AirportId → List AircraftId :=
  sorted_ids.foldl
    (fun acc ac_id =>
      match (loc ac_id).map (fun x => x.1) with
      | some ap_id => fun q => if q == ap_id then acc q ++ [ac_id] else acc q
      | none => acc)
    (fun _ => [])

/-- Initial `busy` of `Schedule::assign`: one interval
`(departure, arrival + destination MTT)` per already-assigned flight. -/
def assign_busy (airports : List Airport) (flights : List Flight) :
    AircraftId → List (Nat × Nat) :=
  flights.foldl
    (fun acc f =>
      match f.aircraft_id with
      | some id => fun q =>
          if q == id then
            acc q ++ [(f.departure_time,
              get_ready_time airports f.arrival_time f.destination_id)]
          else acc q
      | none => acc)
    (fun _ => [])

/-- `Schedule::assign` (`src/schedule/schedule.rs`). -/
def Schedule.assign (s : Schedule) : Schedule :=
  let sorted_ids := List.insertionSort (fun a b : String => idLe a b = true)
    (s.aircraft.map (fun a => a.id))
  let locations := assign_locations s.aircraft s.airports s.flights
  let st : AssignSt :=
    { locations := locations
      by_airport := assign_buckets sorted_ids locations
      busy := assign_busy s.airports s.flights }
  { s with flights := (assign_go s.aircraft s.airports s.flights st).1 }

/-- The status/ownership duality checked first by
`Schedule::assert_invariants`: unscheduled flights own no aircraft,
scheduled/delayed flights own one. -/
def flight_duality (f : Flight) : Bool :=
  match f.status with
  | .Unscheduled _ => f.aircraft_id.isNone
  | .Scheduled => f.aircraft_id.isSome
  | .Delayed _ => f.aircraft_id.isSome

/-- Duality over the whole flight set. -/
def schedule_duality (s : Schedule) : Bool :=
  s.flights.all flight_duality

/-- The rotation of one aircraft as `Schedule::assert_invariants` builds it:
its assigned flights in vector order, then sorted (stably) by departure. -/
def rotation_of (fs : List Flight) (ac : AircraftId) : List Flight :=
  List.insertionSort (fun f g => f.departure_time ≤ g.departure_time)
    (fs.filter (fun f => f.aircraft_id == some ac))

/-- The continuity checks of `Schedule::assert_invariants` over consecutive
pairs of a rotation: spatial (`prev.destination == next.origin`) and
temporal (`next.departure ≥ prev.arrival + mtt(prev.destination)`; the
source unwraps the airport, the embedding uses MTT 0 for an unknown
airport, which never matters when the airports are known). -/
def continuity_pairs_ok (airports : List Airport) : List Flight → Bool
  | [] => true
  | [_] => true
  | a :: b :: rest =>
    (a.destination_id == b.origin_id) &&
    decide (b.departure_time ≥
      a.arrival_time +
        (((airports.find? (fun x => x.id == a.destination_id)).map
          (fun x => x.mtt)).getD 0)) &&
    continuity_pairs_ok airports (b :: rest)

/-- Invariant 3 of the spec (`Schedule::assert_invariants`): every rotation
is a continuous chain. -/
def schedule_continuity (s : Schedule) : Bool :=
  (s.flights.filterMap (fun f => f.aircraft_id)).all
    (fun ac => continuity_pairs_ok s.airports (rotation_of s.flights ac))

/-- `a₀ ≤ a₁ ≤ …` over a list of minute offsets. -/
def times_sorted : List Nat → Bool
  | [] => true
  | [_] => true
  | a :: b :: rest => decide (a ≤ b) && times_sorted (b :: rest)

/-- The flight vector is sorted by departure time
(`flights[i].departure_time ≤ flights[i+1].departure_time` for all i). -/
def flights_sorted_by_departure (fs : List Flight) : Bool :=
  times_sorted (fs.map (fun f => f.departure_time))

/-- The candidate conditions of `Schedule::assign` for one aircraft id at
the flight's origin bucket: the id resolves in the aircraft table, no
maintenance overlap, not at the wrong airport, no busy overlap, and the
flight's airports are not curfewed (the curfew test is aircraft-independent
but is part of qualifying, since `find` rejects every candidate when it
fails). -/
def assign_qualifies (aircraftL : List Aircraft) (airports : List Airport)
    (st : AssignSt) (flight : Flight) (ac_id : AircraftId) : Prop :=
  (∃ a, aircraftL.find? (fun x => x.id == ac_id) = some a ∧
    a.disruptions.all (fun d =>
      !Time.is_overlapping (flight.departure_time, flight.arrival_time)
        (d.«from», d.«to»)) = true ∧
    is_at_wrong_airport a.disruptions flight.departure_time (st.locations a.id) = false ∧
    (st.busy a.id).all (fun iv =>
      !Time.is_overlapping (flight.departure_time, flight.arrival_time) iv) = true) ∧
  assign_airport_open airports flight = true

/-- Whether `Schedule::apply_curfew` hits this flight: not unscheduled, and
its aircraft has a break time at or before the flight's departure. -/
def curfew_hits (broken : AircraftId → Option Nat) (f : Flight) : Bool :=
  !f.status.is_unscheduled &&
    (match f.aircraft_id with
     | some ac =>
       match broken ac with
       | some time => decide (f.departure_time ≥ time)
       | none => false
     | none => false)

/-- Position `j` holds the first hit flight of its aircraft (in vector
order, which is departure order for a vector sorted by departure). -/
def first_hit (broken : AircraftId → Option Nat) (fs : List Flight) (j : Nat) : Bool :=
  (List.range j).all (fun k =>
    !(curfew_hits broken (getF fs k) &&
      ((getF fs k).aircraft_id == (getF fs j).aircraft_id)))

/-- Airports shared by the concrete scenarios below (MTT 30, no curfews),
as in the repository's tests. -/
def fixture_airports : List Airport :=
  [⟨"KRK", 30, []⟩, ⟨"WAW", 30, []⟩, ⟨"GDN", 30, []⟩, ⟨"WRO", 30, []⟩]

/-- Two unscheduled flights and one aircraft at KRK.  The first `assign`
can serve only the KRK flight; the second `assign` finds the aircraft
relocated to WAW and binds the early WAW flight to it, breaking continuity. -/
def fx_two_leg : Schedule :=
  Schedule.new [⟨"AC1", "KRK", []⟩] fixture_airports
    [⟨"F1", none, "WAW", "GDN", 100, 200, .Unscheduled .Waiting⟩,
     ⟨"F2", none, "KRK", "WAW", 500, 600, .Unscheduled .Waiting⟩]

/-- A single unscheduled (Waiting) flight with no aircraft. -/
def fx_waiting : Schedule :=
  Schedule.new [] fixture_airports
    [⟨"F1", none, "KRK", "WAW", 100, 200, .Unscheduled .Waiting⟩]

/-- The spatial-disruption rotation of `test_delay_into_spatial_disruption`:
a location-pinned maintenance window at KRK between the two legs. -/
def fx_spatial : Schedule :=
  Schedule.new [⟨"PLANE_1", "KRK", [⟨1600, 1650, some "KRK"⟩]⟩] fixture_airports
    [⟨"FLIGHT_1", some "PLANE_1", "KRK", "WRO", 1200, 1500, .Scheduled⟩,
     ⟨"FLIGHT_2", some "PLANE_1", "WRO", "WAW", 1800, 2000, .Scheduled⟩]

/-- Two aircraft with interleaved departures; delaying the first flight
past the second one's departure leaves the vector unsorted. -/
def fx_interleaved : Schedule :=
  Schedule.new [⟨"AC1", "KRK", []⟩, ⟨"AC2", "WAW", []⟩] fixture_airports
    [⟨"F1", some "AC1", "KRK", "WAW", 100, 200, .Scheduled⟩,
     ⟨"F2", some "AC2", "WAW", "GDN", 150, 250, .Scheduled⟩]

/-- The three-leg rotation used by the delay tests
(`KRK→WRO→WAW→GDN`, all assigned to PLANE_1). -/
def fx_rotation : List Flight :=
  [⟨"FLIGHT_1", some "PLANE_1", "KRK", "WRO", 1200, 1500, .Scheduled⟩,
   ⟨"FLIGHT_2", some "PLANE_1", "WRO", "WAW", 1800, 2000, .Scheduled⟩,
   ⟨"FLIGHT_3", some "PLANE_1", "WAW", "GDN", 2100, 2350, .Scheduled⟩]

/-- The curfew chain-reaction scenario of `test_curfew_chain_reaction`. -/
def fx_curfew : Schedule :=
  Schedule.new [⟨"PLANE_1", "KRK", []⟩] fixture_airports
    [⟨"FLIGHT_1", some "PLANE_1", "KRK", "WRO", 200, 300, .Scheduled⟩,
     ⟨"FLIGHT_2", some "PLANE_1", "WRO", "WAW", 400, 500, .Scheduled⟩,
     ⟨"FLIGHT_3", some "PLANE_1", "WAW", "KRK", 600, 700, .Scheduled⟩]

/-- Two aircraft parked at KRK with no disruptions; both qualify for any
KRK departure. -/
def fx_two_aircraft : List Aircraft :=
  [⟨"AC_B", "KRK", []⟩, ⟨"AC_A", "KRK", []⟩]

/-- The initial assign state for `fx_two_aircraft` over an empty flight
vector, exactly as `Schedule::assign` builds it. -/
def fx_two_aircraft_st : AssignSt :=
  { locations := assign_locations fx_two_aircraft fixture_airports []
    by_airport := assign_buckets
      (List.insertionSort (fun a b : String => idLe a b = true)
        (fx_two_aircraft.map (fun a => a.id)))
      (assign_locations fx_two_aircraft fixture_airports [])
    busy := assign_busy fixture_airports [] }

/-- An unscheduled KRK departure both fixture aircraft qualify for. -/
def fx_flight_krk : Flight :=
  ⟨"F1", none, "KRK", "WAW", 100, 200, .Unscheduled .Waiting⟩

/-- C10: time subtraction in the delay path never underflows.  Under the
precondition `departure_time ≤ arrival_time`, in `compute_shifted_times`
the candidate departure is never earlier than the original departure (so
`dep_time - flight.departure_time`, used for the MAX_DELAY comparison and
the `Delayed` minutes, is exact), the candidate arrival is the candidate
departure plus the duration, and the duration `arrival - departure` is
exact (`departure + (arrival - departure) = arrival`). -/
theorem delay_subtractions_no_underflow (airports : List Airport) (f : Flight)
    (prev_arrival : Nat) (h : f.departure_time ≤ f.arrival_time) :
    f.departure_time ≤ (compute_shifted_times airports f prev_arrival).1 ∧
    (compute_shifted_times airports f prev_arrival).2.1 =
      (compute_shifted_times airports f prev_arrival).1 +
        (f.arrival_time - f.departure_time) ∧
    f.departure_time + (f.arrival_time - f.departure_time) = f.arrival_time :=
  ⟨Nat.le_max_right _ _, rfl, Nat.add_sub_cancel' h⟩

theorem delay_subtractions_no_underflow_witness :
    fx_flight_krk.departure_time ≤
      (compute_shifted_times fixture_airports fx_flight_krk 150).1 ∧
    (compute_shifted_times fixture_airports fx_flight_krk 150).2.1 =
      (compute_shifted_times fixture_airports fx_flight_krk 150).1 +
        (fx_flight_krk.arrival_time - fx_flight_krk.departure_time) ∧
    fx_flight_krk.departure_time +
        (fx_flight_krk.arrival_time - fx_flight_krk.departure_time) =
      fx_flight_krk.arrival_time :=
  delay_subtractions_no_underflow fixture_airports fx_flight_krk 150 (by decide)

/-- C2 counter-evidence (code bug): delaying a flight that is currently
`Unscheduled` leaves `aircraft_id = None` but sets `status = Delayed`, so
the status/ownership duality asserted by `Schedule::assert_invariants` is
violated after `apply_delay`. -/
theorem delay_unscheduled_breaks_duality :
    schedule_duality fx_waiting = true ∧
    (fx_waiting.apply_delay "F1" 10).flights =
      [⟨"F1", none, "KRK", "WAW", 110, 210, .Delayed 10⟩] ∧
    schedule_duality (fx_waiting.apply_delay "F1" 10) = false := by
  decide

/-- C1 counter-evidence (code bug): from a fresh two-flight scenario, the
first `assign` satisfies continuity, but a second `assign` binds the early
WAW→GDN flight to the aircraft relocated to WAW by the first call, so the
aircraft's rotation sorted by departure is WAW→GDN then KRK→WAW and the
continuity invariant of `Schedule::assert_invariants` fails. -/
theorem assign_twice_breaks_continuity :
    schedule_continuity fx_two_leg.assign = true ∧
    (getF fx_two_leg.assign.assign.flights 0).aircraft_id = some "AC1" ∧
    (getF fx_two_leg.assign.assign.flights 0).destination_id = "GDN" ∧
    (getF fx_two_leg.assign.assign.flights 1).aircraft_id = some "AC1" ∧
    (getF fx_two_leg.assign.assign.flights 1).origin_id = "KRK" ∧
    schedule_continuity fx_two_leg.assign.assign = false := by
  decide

/-- C3 counter-evidence (code bug): calling `assign` twice with no
intervening disruption is not idempotent — the second call changes the
first flight's `aircraft_id` and `status` (and, per
`assign_twice_breaks_continuity`, thereby violates the asserted
invariants). -/
theorem assign_not_idempotent :
    (getF fx_two_leg.assign.flights 0).status = .Unscheduled .Waiting ∧
    (getF fx_two_leg.assign.flights 0).aircraft_id = none ∧
    (getF fx_two_leg.assign.assign.flights 0).status = .Scheduled ∧
    (getF fx_two_leg.assign.assign.flights 0).aircraft_id = some "AC1" := by
  decide

/-- C9 counterexample: the flight vector is *not* sorted by departure time
at all times — after `apply_delay` pushes one aircraft's flight past an
interleaved flight of another aircraft, the vector is unsorted. -/
theorem delay_breaks_sortedness :
    flights_sorted_by_departure fx_interleaved.flights = true ∧
    flights_sorted_by_departure (fx_interleaved.apply_delay "F1" 100).flights = false := by
  decide

/-- C6 counterexample: a downstream flight reached with the chain unbroken
(the trigger stays `Delayed`) and not displaced (the `is_overlapping` flag
of `compute_shifted_times` is false: its departure 1800 is at or after the
required ready time 1580) is still unscheduled, because the wrong-airport
check runs before the displacement test — so its status and aircraft_id do
change, contrary to the claim. -/
theorem delay_non_displaced_still_unscheduled :
    (getF (fx_spatial.apply_delay "FLIGHT_1" 50).flights 0).status = .Delayed 50 ∧
    (compute_shifted_times fixture_airports (getF fx_spatial.flights 1) 1550).2.2 = false ∧
    (getF fx_spatial.flights 1).status = .Scheduled ∧
    (getF fx_spatial.flights 1).aircraft_id = some "PLANE_1" ∧
    (getF (fx_spatial.apply_delay "FLIGHT_1" 50).flights 1).status =
      .Unscheduled .AircraftMaintenance ∧
    (getF (fx_spatial.apply_delay "FLIGHT_1" 50).flights 1).aircraft_id = none := by
  decide

/-- C8 counterexample: `apply_delay` with `shift == 0` returns before
recording any report, so the last report still holds the previous call's
nonempty `unscheduled` list and `first_break` — not an empty report. -/
theorem delay_zero_shift_keeps_old_report :
    ((fx_waiting.apply_delay "F1" 2100).apply_delay "F1" 0).last_report.map
        (fun r => (r.affected, r.unscheduled, r.first_break)) =
      some ([], [("F1", .MaxDelayExceeded)],
        some ("F1", .MaxDelayExceeded)) := by
  decide

/-- C8 (amended): `apply_delay` with `shift == 0` changes nothing at all —
flights and `last_report` are both left untouched (no empty report is
recorded); with an unknown `flight_id` (and a nonzero shift) it changes no
flight and records a report with empty `affected`/`unscheduled` and
`first_break = None`. -/
theorem delay_noop_semantics :
    (∀ (s : Schedule) (fid : FlightId), s.apply_delay fid 0 = s) ∧
    (∀ (s : Schedule) (fid : FlightId) (shift : Nat), shift ≠ 0 →
      flights_index s.flights fid = none →
      (s.apply_delay fid shift).flights = s.flights ∧
      (s.apply_delay fid shift).last_report =
        some ⟨.Delay fid shift, [], [], none⟩) := by
  constructor
  · intro s fid
    simp [Schedule.apply_delay]
  · intro s fid shift hs hidx
    have hz : (shift == 0) = false := by simpa using hs
    constructor <;> simp [Schedule.apply_delay, hz, hidx]

theorem delay_noop_semantics_witness :
    fx_waiting.apply_delay "F1" 0 = fx_waiting ∧
    (fx_waiting.apply_delay "NOPE" 5).flights = fx_waiting.flights ∧
    (fx_waiting.apply_delay "NOPE" 5).last_report =
      some ⟨.Delay "NOPE" 5, [], [], none⟩ :=
  ⟨delay_noop_semantics.1 fx_waiting "F1",
   (delay_noop_semantics.2 fx_waiting "NOPE" 5 (by decide) (by decide)).1,
   (delay_noop_semantics.2 fx_waiting "NOPE" 5 (by decide) (by decide)).2⟩

instance : IsTotal Flight (fun f g => f.departure_time ≤ g.departure_time) :=
  ⟨fun a b => Nat.le_total a.departure_time b.departure_time⟩

instance : IsTrans Flight (fun f g => f.departure_time ≤ g.departure_time) :=
  ⟨fun _ _ _ h1 h2 => Nat.le_trans h1 h2⟩

theorem times_sorted_of_pairwise :
    ∀ {l : List Nat}, List.Pairwise (fun a b => a ≤ b) l → times_sorted l = true
  | [], _ => rfl
  | [_], _ => rfl
  | a :: b :: rest, h => by
    rcases List.pairwise_cons.mp h with ⟨h1, h2⟩
    have hab : a ≤ b := h1 b (by simp)
    have hr := times_sorted_of_pairwise h2
    simp [times_sorted, hab, hr]

theorem getF_cons_succ (f : Flight) (rest : List Flight) (i : Nat) :
    getF (f :: rest) (i + 1) = getF rest i := rfl

theorem getF_cons_zero (f : Flight) (rest : List Flight) :
    getF (f :: rest) 0 = f := rfl

theorem map_set_proj {β : Type} (h : Flight → β) :
    ∀ (l : List Flight) (i : Nat) (g : Flight), h g = h (getF l i) →
      (l.set i g).map h = l.map h
  | [], _, _, _ => rfl
  | f :: rest, 0, g, hg => by
    rw [getF_cons_zero] at hg
    simp [List.set, hg]
  | f :: rest, i + 1, g, hg => by
    rw [getF_cons_succ] at hg
    have := map_set_proj h rest i g hg
    simp [List.set, this]

theorem map_unschedule {β : Type} (h : Flight → β)
    (hproj : ∀ (f : Flight) (r : UnscheduledReason),
      h { f with status := FlightStatus.Unscheduled r, aircraft_id := none } = h f)
    (fs : List Flight) (fid : FlightId) (r : UnscheduledReason) :
    (unschedule fs fid r).map h = fs.map h := by
  unfold unschedule
  cases hidx : flights_index fs fid with
  | none => rfl
  | some idx => exact map_set_proj h fs idx _ (hproj (getF fs idx) r)

theorem map_foldl_unschedule {β : Type} (h : Flight → β)
    (hproj : ∀ (f : Flight) (r : UnscheduledReason),
      h { f with status := FlightStatus.Unscheduled r, aircraft_id := none } = h f) :
    ∀ (entries : List (FlightId × UnscheduledReason)) (fs : List Flight),
      ((entries.foldl (fun fs e => unschedule fs e.1 e.2) fs).map h = fs.map h)
  | [], _ => rfl
  | e :: rest, fs => by
    have h1 := map_unschedule h hproj fs e.1 e.2
    have h2 := map_foldl_unschedule h hproj rest (unschedule fs e.1 e.2)
    simpa [List.foldl_cons, h1] using h2

theorem map_dep_assign_go (aL : List Aircraft) (ap : List Airport) :
    ∀ (fs : List Flight) (st : AssignSt),
      ((assign_go aL ap fs st).1).map (fun f => f.departure_time) =
        fs.map (fun f => f.departure_time)
  | [], _ => rfl
  | f :: rest, st => by
    unfold assign_go
    cases hu : f.status.is_unscheduled with
    | false =>
      have := map_dep_assign_go aL ap rest st
      simp [hu, this]
    | true =>
      cases hch : chosen_aircraft aL ap st f with
      | none =>
        have := map_dep_assign_go aL ap rest st
        simp [hu, hch, this]
      | some a =>
        have := map_dep_assign_go aL ap rest (assign_update ap st f a)
        simp [hu, hch, this]

/-- C9 (amended): the flight vector is sorted by departure time after
`Schedule::new`, and `assign` and `apply_curfew` preserve sortedness
(they never change any flight's times); `apply_delay` may break it
(see the counterexample). -/
theorem sortedness_after_new_assign_curfew :
    (∀ (a : List Aircraft) (b : List Airport) (fs : List Flight),
      flights_sorted_by_departure (Schedule.new a b fs).flights = true) ∧
    (∀ s : Schedule, flights_sorted_by_departure s.flights = true →
      flights_sorted_by_departure s.assign.flights = true) ∧
    (∀ (s : Schedule) (ap : AirportId) (t1 t2 : Nat),
      flights_sorted_by_departure s.flights = true →
      flights_sorted_by_departure (s.apply_curfew ap t1 t2).flights = true) := by
  refine ⟨?_, ?_, ?_⟩
  · intro a b fs
    have hs := List.sorted_insertionSort
      (fun f g : Flight => f.departure_time ≤ g.departure_time) fs
    have hp : (List.insertionSort
        (fun f g : Flight => f.departure_time ≤ g.departure_time) fs).Pairwise
        (fun f g => f.departure_time ≤ g.departure_time) := hs
    have := times_sorted_of_pairwise (List.pairwise_map.mpr hp)
    simpa [Schedule.new, flights_sorted_by_departure] using this
  · intro s hs
    have hmap := map_dep_assign_go s.aircraft s.airports s.flights
      { locations := assign_locations s.aircraft s.airports s.flights
        by_airport := assign_buckets
          (List.insertionSort (fun a b : String => idLe a b = true)
            (s.aircraft.map (fun a => a.id)))
          (assign_locations s.aircraft s.airports s.flights)
        busy := assign_busy s.airports s.flights }
    simpa [Schedule.assign, flights_sorted_by_departure, hmap] using hs
  · intro s ap t1 t2 hs
    unfold Schedule.apply_curfew
    cases hfind : s.airports.find? (fun a => a.id == ap) with
    | none => simpa using hs
    | some airport =>
      have hmap := map_foldl_unschedule (fun f => f.departure_time)
        (fun _ _ => rfl)
        (curfew_mark
          (curfew_broken_map s.flights ap
            (airport.disruptions ++ [⟨t1, t2⟩]))
          s.flights (fun _ => none))
        s.flights
      simpa [flights_sorted_by_departure, hmap] using hs

theorem sortedness_after_new_assign_curfew_witness :
    flights_sorted_by_departure
        (Schedule.new [] fixture_airports fx_rotation).flights = true ∧
    flights_sorted_by_departure fx_curfew.assign.flights = true ∧
    flights_sorted_by_departure (fx_curfew.apply_curfew "WAW" 450 550).flights = true :=
  ⟨sortedness_after_new_assign_curfew.1 [] fixture_airports fx_rotation,
   sortedness_after_new_assign_curfew.2.1 fx_curfew (by decide),
   sortedness_after_new_assign_curfew.2.2 fx_curfew "WAW" 450 550 (by decide)⟩

/-- C6 (amended): during delay propagation, when a downstream flight of the
rotation is reached with the chain not yet broken, its original departure
not earlier than the required ready time (`is_overlapping = false`), *and*
it passes the aircraft-maintenance, wrong-airport and airport-curfew checks
at its candidate (= original) times, propagation stops: the walk returns
the remaining flights — that flight and everything after it — unchanged and
appends nothing to the report, so the whole call leaves them untouched. -/
theorem delay_stops_on_clear_non_displaced (airports : List Airport)
    (dis : List Availability) (ac : AircraftId) (f : Flight) (rest : List Flight)
    (prev_arrival : Nat) (prev_destination : AirportId)
    (hac : f.aircraft_id = some ac)
    (hnd : (compute_shifted_times airports f prev_arrival).2.2 = false)
    (hm : violates_aircraft_maintenance dis f.departure_time
      (compute_shifted_times airports f prev_arrival).2.1 = false)
    (hw : is_at_wrong_airport dis f.departure_time
      (some (prev_destination, prev_arrival)) = false)
    (hc : is_airport_closed airports f (compute_shifted_times airports f prev_arrival).1
      (compute_shifted_times airports f prev_arrival).2.1 = false) :
    propagate airports dis ac (f :: rest) false prev_arrival prev_destination =
      (f :: rest, [], []) := by
  have hlt : ¬ f.departure_time < get_ready_time airports prev_arrival f.origin_id := by
    simpa [compute_shifted_times] using hnd
  have hmax : (compute_shifted_times airports f prev_arrival).1 = f.departure_time := by
    simp [compute_shifted_times, Nat.max_eq_right (Nat.le_of_not_lt hlt)]
  have hdelta : (compute_shifted_times airports f prev_arrival).1 - f.departure_time = 0 := by
    rw [hmax]; exact Nat.sub_self _
  unfold propagate
  simp only [hac, beq_self_eq_true]
  rw [if_pos trivial]
  rw [if_neg (by simp)]
  rw [if_neg (by simp [hm, hw])]
  rw [if_neg (by simp [hc])]
  rw [if_neg (by simp [hdelta, MAX_DELAY])]
  rw [if_neg (by simp [hnd])]

theorem delay_stops_on_clear_non_displaced_witness :
    propagate fixture_airports [] "PLANE_1"
      [⟨"FLIGHT_2", some "PLANE_1", "WRO", "WAW", 1800, 2000, .Scheduled⟩,
       ⟨"FLIGHT_3", some "PLANE_1", "WAW", "GDN", 2100, 2350, .Scheduled⟩]
      false 1500 "WRO" =
      ([⟨"FLIGHT_2", some "PLANE_1", "WRO", "WAW", 1800, 2000, .Scheduled⟩,
        ⟨"FLIGHT_3", some "PLANE_1", "WAW", "GDN", 2100, 2350, .Scheduled⟩], [], []) :=
  delay_stops_on_clear_non_displaced fixture_airports [] "PLANE_1"
    ⟨"FLIGHT_2", some "PLANE_1", "WRO", "WAW", 1800, 2000, .Scheduled⟩
    [⟨"FLIGHT_3", some "PLANE_1", "WAW", "GDN", 2100, 2350, .Scheduled⟩]
    1500 "WRO" rfl (by decide) (by decide) (by decide) (by decide)

theorem last_index_of_lt_length {fid : FlightId} :
    ∀ {ids : List FlightId} {i : Nat}, last_index_of fid ids = some i → i < ids.length := by
  intro ids
  induction ids with
  | nil => intro i h; simp [last_index_of] at h
  | cons x rest ih =>
    intro i h
    unfold last_index_of at h
    cases hr : last_index_of fid rest with
    | some j =>
      rw [hr] at h
      cases h
      exact Nat.succ_lt_succ (ih hr)
    | none =>
      rw [hr] at h
      by_cases hx : (x == fid) = true
      · rw [if_pos hx] at h; cases h; simp
      · rw [if_neg hx] at h; cases h

theorem last_index_of_getD {fid : FlightId} :
    ∀ {ids : List FlightId} {i : Nat}, last_index_of fid ids = some i →
      ids.getD i "" = fid := by
  intro ids
  induction ids with
  | nil => intro i h; simp [last_index_of] at h
  | cons x rest ih =>
    intro i h
    unfold last_index_of at h
    cases hr : last_index_of fid rest with
    | some j =>
      rw [hr] at h
      cases h
      simpa using ih hr
    | none =>
      rw [hr] at h
      by_cases hx : (x == fid) = true
      · rw [if_pos hx] at h; cases h; simpa using hx
      · rw [if_neg hx] at h; cases h

theorem last_index_of_none {fid : FlightId} :
    ∀ {ids : List FlightId}, last_index_of fid ids = none → ∀ x ∈ ids, x ≠ fid := by
  intro ids
  induction ids with
  | nil => intro _ x hx; simp at hx
  | cons z zs ihz =>
    intro h x hx
    unfold last_index_of at h
    cases hz : last_index_of fid zs with
    | some k => rw [hz] at h; cases h
    | none =>
      rw [hz] at h
      by_cases hzf : (z == fid) = true
      · rw [if_pos hzf] at h; cases h
      · rw [if_neg hzf] at h
        rcases List.mem_cons.mp hx with h1 | h1
        · subst h1; simpa using hzf
        · exact ihz hz x h1

theorem last_index_of_drop {fid : FlightId} :
    ∀ {ids : List FlightId} {i : Nat}, last_index_of fid ids = some i →
      ∀ x ∈ ids.drop (i + 1), x ≠ fid := by
  intro ids
  induction ids with
  | nil => intro i h; simp [last_index_of] at h
  | cons y rest ih =>
    intro i h
    unfold last_index_of at h
    cases hr : last_index_of fid rest with
    | some j =>
      rw [hr] at h
      cases h
      simpa using ih hr
    | none =>
      rw [hr] at h
      by_cases hx : (y == fid) = true
      · rw [if_pos hx] at h
        cases h
        intro x hx2
        exact last_index_of_none hr x (by simpa using hx2)
      · rw [if_neg hx] at h; cases h

theorem getD_map_id :
    ∀ (l : List Flight) (i : Nat), i < l.length →
      (l.map (fun f => f.id)).getD i "" = (getF l i).id := by
  intro l
  induction l with
  | nil => intro i h; simp at h
  | cons f rest ih =>
    intro i h
    cases i with
    | zero => rfl
    | succ j =>
      have := ih j (by simpa using Nat.lt_of_succ_lt_succ h)
      simpa [getF] using this

theorem getD_set_self :
    ∀ (l : List Flight) (i : Nat) (g : Flight), i < l.length →
      (l.set i g).getD i default = g := by
  intro l
  induction l with
  | nil => intro i g h; simp at h
  | cons f rest ih =>
    intro i g h
    cases i with
    | zero => rfl
    | succ j => exact ih j g (by simpa using Nat.lt_of_succ_lt_succ h)

theorem getD_set_ne :
    ∀ (l : List Flight) (i j : Nat) (g : Flight), j ≠ i →
      (l.set i g).getD j default = l.getD j default := by
  intro l
  induction l with
  | nil => intro i j g h; rfl
  | cons f rest ih =>
    intro i j g h
    cases i with
    | zero =>
      cases j with
      | zero => exact absurd rfl h
      | succ k => rfl
    | succ i2 =>
      cases j with
      | zero => rfl
      | succ k => exact ih i2 k g (fun hc => h (by rw [hc]))

theorem set_getF_self : ∀ (l : List Flight) (i : Nat), l.set i (getF l i) = l := by
  intro l
  induction l with
  | nil => intro i; rfl
  | cons f rest ih =>
    intro i
    cases i with
    | zero => rfl
    | succ j => simpa [List.set, getF] using ih j

theorem propagate_broken (airports : List Airport) (dis : List Availability)
    (ac : AircraftId) :
    ∀ (l : List Flight) (pa : Nat) (pd : AirportId),
      propagate airports dis ac l true pa pd =
        (l, [],
          (l.filter (fun f => f.aircraft_id == some ac)).map
            (fun f => (f.id, UnscheduledReason.BrokenChain))) := by
  intro l
  induction l with
  | nil => intro pa pd; rfl
  | cons f rest ih =>
    intro pa pd
    unfold propagate
    cases hb : f.aircraft_id == some ac with
    | true => simp [hb, ih, List.filter_cons]
    | false => simp [hb, ih, List.filter_cons]

theorem flights_index_lt_length {fs : List Flight} {fid : FlightId} {i : Nat}
    (h : flights_index fs fid = some i) : i < fs.length := by
  have h2 : last_index_of fid (fs.map (fun f => f.id)) = some i := h
  have := last_index_of_lt_length h2
  simpa using this

theorem flights_index_getF_id {fs : List Flight} {fid : FlightId} {i : Nat}
    (h : flights_index fs fid = some i) : (getF fs i).id = fid := by
  have h2 : last_index_of fid (fs.map (fun f => f.id)) = some i := h
  have := last_index_of_getD h2
  rwa [getD_map_id fs i (flights_index_lt_length h)] at this

theorem unschedule_getF_ne (fs : List Flight) (fid : FlightId)
    (r : UnscheduledReason) (j : Nat) (hne : (getF fs j).id ≠ fid) :
    getF (unschedule fs fid r) j = getF fs j := by
  unfold unschedule
  cases hidx : flights_index fs fid with
  | none => rfl
  | some idx =>
    have hid : (getF fs idx).id = fid := flights_index_getF_id hidx
    have hji : j ≠ idx := fun hc => hne (by rw [hc, hid])
    exact getD_set_ne fs idx j _ hji

theorem foldl_unschedule_getF_ne :
    ∀ (entries : List (FlightId × UnscheduledReason)) (fs : List Flight) (j : Nat),
      (∀ e ∈ entries, e.1 ≠ (getF fs j).id) →
      getF (entries.foldl (fun fs e => unschedule fs e.1 e.2) fs) j = getF fs j := by
  intro entries
  induction entries with
  | nil => intro fs j _; rfl
  | cons e rest ih =>
    intro fs j h
    have h0 : e.1 ≠ (getF fs j).id := h e (List.mem_cons_self e rest)
    have hstep : getF (unschedule fs e.1 e.2) j = getF fs j :=
      unschedule_getF_ne fs e.1 e.2 j (fun hc => h0 hc.symm)
    have hr := ih (unschedule fs e.1 e.2) j (by
      intro e2 he2
      rw [hstep]
      exact h e2 (List.mem_cons_of_mem _ he2))
    simpa [List.foldl_cons, hstep] using hr

theorem apply_delay_max_flights (s : Schedule) (fid : FlightId) (shift : Nat)
    (i : Nat) (hidx : flights_index s.flights fid = some i) (hz : shift ≠ 0)
    (hmax : shift > MAX_DELAY) :
    (s.apply_delay fid shift).flights =
      (((getF s.flights i).id, UnscheduledReason.MaxDelayExceeded) ::
        (match (getF s.flights i).aircraft_id with
         | none => []
         | some ac =>
           ((s.flights.drop (i + 1)).filter (fun f => f.aircraft_id == some ac)).map
             (fun f => (f.id, UnscheduledReason.BrokenChain)))).foldl
        (fun fs e => unschedule fs e.1 e.2) s.flights := by
  have hzb : (shift == 0) = false := by simpa using hz
  unfold Schedule.apply_delay
  simp only [hzb, Bool.false_eq_true, if_false, hidx]
  rw [if_pos hmax]
  cases hac : (getF s.flights i).aircraft_id with
  | none => simp [hac, set_getF_self]
  | some ac => simp [hac, propagate_broken, set_getF_self, List.take_append_drop]

/-- C5: for every known `flight_id`, `apply_delay` with `shift > 2000
(MAX_DELAY)` marks the triggering flight `Unscheduled(MaxDelayExceeded)`,
clears its `aircraft_id`, and leaves its departure and arrival times
unchanged. -/
theorem max_delay_unschedules_trigger (s : Schedule) (fid : FlightId)
    (shift : Nat) (i : Nat) (hidx : flights_index s.flights fid = some i)
    (hshift : shift > MAX_DELAY) :
    (getF (s.apply_delay fid shift).flights i).status =
      .Unscheduled .MaxDelayExceeded ∧
    (getF (s.apply_delay fid shift).flights i).aircraft_id = none ∧
    (getF (s.apply_delay fid shift).flights i).departure_time =
      (getF s.flights i).departure_time ∧
    (getF (s.apply_delay fid shift).flights i).arrival_time =
      (getF s.flights i).arrival_time := by
  have hz : shift ≠ 0 := by
    have h2000 : (2000 : Nat) < shift := by simpa [MAX_DELAY] using hshift
    omega
  have hlen : i < s.flights.length := flights_index_lt_length hidx
  have hflid : (getF s.flights i).id = fid := flights_index_getF_id hidx
  rw [apply_delay_max_flights s fid shift i hidx hz hshift]
  rw [List.foldl_cons]
  have hstep1 : unschedule s.flights (getF s.flights i).id
      UnscheduledReason.MaxDelayExceeded =
      s.flights.set i { getF s.flights i with
        status := .Unscheduled .MaxDelayExceeded, aircraft_id := none } := by
    unfold unschedule
    rw [hflid, hidx]
  rw [hstep1]
  have hgetA : getF (s.flights.set i { getF s.flights i with
      status := .Unscheduled .MaxDelayExceeded, aircraft_id := none }) i =
      { getF s.flights i with
        status := .Unscheduled .MaxDelayExceeded, aircraft_id := none } :=
    getD_set_self s.flights i _ hlen
  cases hac : (getF s.flights i).aircraft_id with
  | none =>
    simp only [List.foldl_nil]
    rw [hgetA]
    exact ⟨rfl, rfl, rfl, rfl⟩
  | some ac =>
    have hidx2 : last_index_of fid (s.flights.map (fun f => f.id)) = some i := hidx
    have hdropids := last_index_of_drop hidx2
    have hne : ∀ e ∈ ((s.flights.drop (i + 1)).filter
        (fun f => f.aircraft_id == some ac)).map
          (fun f => (f.id, UnscheduledReason.BrokenChain)),
        e.1 ≠ (getF (s.flights.set i { getF s.flights i with
          status := .Unscheduled .MaxDelayExceeded, aircraft_id := none }) i).id := by
      intro e he
      rcases List.mem_map.mp he with ⟨f, hf, rfl⟩
      have hfdrop : f ∈ s.flights.drop (i + 1) := (List.mem_filter.mp hf).1
      have hfidmem : f.id ∈ (s.flights.map (fun g => g.id)).drop (i + 1) := by
        rw [← List.map_drop]
        exact List.mem_map_of_mem _ hfdrop
      have hne2 : f.id ≠ fid := hdropids f.id hfidmem
      rw [hgetA]
      simpa [hflid] using hne2
    rw [foldl_unschedule_getF_ne _ _ _ hne]
    rw [hgetA]
    exact ⟨rfl, rfl, rfl, rfl⟩

theorem max_delay_unschedules_trigger_witness :
    (getF (fx_waiting.apply_delay "F1" 2100).flights 0).status =
      .Unscheduled .MaxDelayExceeded ∧
    (getF (fx_waiting.apply_delay "F1" 2100).flights 0).aircraft_id = none ∧
    (getF (fx_waiting.apply_delay "F1" 2100).flights 0).departure_time =
      (getF fx_waiting.flights 0).departure_time ∧
    (getF (fx_waiting.apply_delay "F1" 2100).flights 0).arrival_time =
      (getF fx_waiting.flights 0).arrival_time :=
  max_delay_unschedules_trigger fx_waiting "F1" 2100 0 (by decide) (by decide)

theorem charListLe_refl : ∀ (l : List Char), charListLe l l = true := by
  intro l
  induction l with
  | nil => rfl
  | cons c cs ih =>
    unfold charListLe
    rw [if_neg (by omega), if_neg (by omega)]
    exact ih

theorem charListLe_total :
    ∀ (a b : List Char), charListLe a b = true ∨ charListLe b a = true := by
  intro a
  induction a with
  | nil => intro b; left; rfl
  | cons x xs ih =>
    intro b
    cases b with
    | nil => right; rfl
    | cons y ys =>
      unfold charListLe
      rcases Nat.lt_trichotomy x.toNat y.toNat with h | h | h
      · left; simp [h]
      · rcases ih ys with h2 | h2
        · left; rw [if_neg (by omega), if_neg (by omega)]; exact h2
        · right; rw [if_neg (by omega), if_neg (by omega)]; exact h2
      · right; simp [h]

theorem charListLe_trans :
    ∀ (a b c : List Char), charListLe a b = true → charListLe b c = true →
      charListLe a c = true := by
  intro a
  induction a with
  | nil => intro b c _ _; rfl
  | cons x xs ih =>
    intro b c hab hbc
    cases b with
    | nil => simp [charListLe] at hab
    | cons y ys =>
      cases c with
      | nil => simp [charListLe] at hbc
      | cons z zs =>
        unfold charListLe at hab hbc ⊢
        rcases Nat.lt_trichotomy x.toNat y.toNat with hxy | hxy | hxy
        · rcases Nat.lt_trichotomy y.toNat z.toNat with hyz | hyz | hyz
          · simp [show x.toNat < z.toNat by omega]
          · simp [show x.toNat < z.toNat by omega]
          · rw [if_neg (by omega), if_pos hyz] at hbc
            exact absurd hbc (by simp)
        · rw [if_neg (by omega), if_neg (by omega)] at hab
          rcases Nat.lt_trichotomy y.toNat z.toNat with hyz | hyz | hyz
          · simp [show x.toNat < z.toNat by omega]
          · rw [if_neg (by omega), if_neg (by omega)] at hbc
            rw [if_neg (by omega), if_neg (by omega)]
            exact ih ys zs hab hbc
          · rw [if_neg (by omega), if_pos hyz] at hbc
            exact absurd hbc (by simp)
        · rw [if_neg (by omega), if_pos hxy] at hab
          exact absurd hab (by simp)

theorem idLe_refl (a : String) : idLe a a = true := charListLe_refl a.data

theorem idLe_total (a b : String) : idLe a b = true ∨ idLe b a = true :=
  charListLe_total a.data b.data

theorem idLe_trans (a b c : String) (h1 : idLe a b = true) (h2 : idLe b c = true) :
    idLe a c = true :=
  charListLe_trans a.data b.data c.data h1 h2

instance : IsTotal String (fun a b => idLe a b = true) := ⟨idLe_total⟩

instance : IsTrans String (fun a b => idLe a b = true) :=
  ⟨fun a b c => idLe_trans a b c⟩

theorem assign_buckets_apply (loc : AircraftId → Option (AirportId × Nat)) :
    ∀ (ids : List AircraftId) (ap : AirportId),
      assign_buckets ids loc ap =
        ids.filter (fun id => ((loc id).map (fun x => x.1)) == some ap) := by
  have hgo : ∀ (ids : List AircraftId) (m : AirportId → List AircraftId) (ap : AirportId),
      (ids.foldl (fun acc ac_id =>
        match (loc ac_id).map (fun x => x.1) with
        | some ap_id => fun q => if q == ap_id then acc q ++ [ac_id] else acc q
        | none => acc) m) ap =
      m ap ++ ids.filter (fun id => ((loc id).map (fun x => x.1)) == some ap) := by
    intro ids
    induction ids with
    | nil => intro m ap; simp
    | cons id rest ih =>
      intro m ap
      rw [List.foldl_cons]
      rw [ih]
      cases hloc : (loc id).map (fun x => x.1) with
      | none => simp [List.filter_cons, hloc]
      | some ap_id =>
        by_cases hap : ap = ap_id
        · subst hap
          simp [List.filter_cons, hloc]
        · have h1 : (ap == ap_id) = false := by simpa using hap
          have h2 : (some ap_id == some ap) = false := by
            simpa using fun hc => hap hc.symm
          simp [List.filter_cons, hloc, h1, h2]
  intro ids ap
  unfold assign_buckets
  rw [hgo]
  simp

theorem find?_head?_of_true {α : Type} (p : α → Bool) (l : List α)
    (hp : ∀ x, p x = true) : l.find? p = l.head? := by
  cases l with
  | nil => rfl
  | cons a rest => simp [List.find?_cons, hp a]

theorem chosen_chain_min (aircraftL : List Aircraft) (airports : List Airport)
    (st : AssignSt) (flight : Flight) :
    ∀ (L : List AircraftId),
      L.Pairwise (fun a b => idLe a b = true) →
      (∃ id ∈ L, ∃ a, aircraftL.find? (fun x => x.id == id) = some a ∧
        a.disruptions.all (fun d =>
          !Time.is_overlapping (flight.departure_time, flight.arrival_time)
            (d.«from», d.«to»)) = true ∧
        is_at_wrong_airport a.disruptions flight.departure_time
          (st.locations a.id) = false ∧
        (st.busy a.id).all (fun iv =>
          !Time.is_overlapping (flight.departure_time, flight.arrival_time) iv) = true) →
      ∃ a,
        ((((L.filterMap (fun ac_id => aircraftL.find? (fun x => x.id == ac_id))).filter
          (fun x => x.disruptions.all (fun d =>
            !Time.is_overlapping (flight.departure_time, flight.arrival_time)
              (d.«from», d.«to»)))).filter
          (fun x => !is_at_wrong_airport x.disruptions flight.departure_time
            (st.locations x.id))).filter
          (fun x => (st.busy x.id).all (fun iv =>
            !Time.is_overlapping (flight.departure_time, flight.arrival_time) iv))).head? =
          some a ∧
        a.id ∈ L ∧
        (∃ a2, aircraftL.find? (fun x => x.id == a.id) = some a2 ∧
          a2.disruptions.all (fun d =>
            !Time.is_overlapping (flight.departure_time, flight.arrival_time)
              (d.«from», d.«to»)) = true ∧
          is_at_wrong_airport a2.disruptions flight.departure_time
            (st.locations a2.id) = false ∧
          (st.busy a2.id).all (fun iv =>
            !Time.is_overlapping (flight.departure_time, flight.arrival_time) iv) = true) ∧
        (∀ id ∈ L, (∃ a2, aircraftL.find? (fun x => x.id == id) = some a2 ∧
          a2.disruptions.all (fun d =>
            !Time.is_overlapping (flight.departure_time, flight.arrival_time)
              (d.«from», d.«to»)) = true ∧
          is_at_wrong_airport a2.disruptions flight.departure_time
            (st.locations a2.id) = false ∧
          (st.busy a2.id).all (fun iv =>
            !Time.is_overlapping (flight.departure_time, flight.arrival_time) iv) = true) →
          idLe a.id id = true) := by
  intro L
  induction L with
  | nil =>
    intro _ hex
    rcases hex with ⟨id, hid, _⟩
    simp at hid
  | cons x rest ih =>
    intro hpw hex
    rcases List.pairwise_cons.mp hpw with ⟨hx_le, hpw_rest⟩
    cases hfind : aircraftL.find? (fun a2 => a2.id == x) with
    | none =>
      have hQx : ¬ (∃ a2, aircraftL.find? (fun x2 => x2.id == x) = some a2 ∧
          a2.disruptions.all (fun d =>
            !Time.is_overlapping (flight.departure_time, flight.arrival_time)
              (d.«from», d.«to»)) = true ∧
          is_at_wrong_airport a2.disruptions flight.departure_time
            (st.locations a2.id) = false ∧
          (st.busy a2.id).all (fun iv =>
            !Time.is_overlapping (flight.departure_time, flight.arrival_time) iv) = true) := by
        rintro ⟨a2, ha2, _⟩
        rw [hfind] at ha2
        cases ha2
      have hex2 : ∃ id ∈ rest, ∃ a, aircraftL.find? (fun x => x.id == id) = some a ∧
          a.disruptions.all (fun d =>
            !Time.is_overlapping (flight.departure_time, flight.arrival_time)
              (d.«from», d.«to»)) = true ∧
          is_at_wrong_airport a.disruptions flight.departure_time
            (st.locations a.id) = false ∧
          (st.busy a.id).all (fun iv =>
            !Time.is_overlapping (flight.departure_time, flight.arrival_time) iv) = true := by
        rcases hex with ⟨id, hid, hQ⟩
        rcases List.mem_cons.mp hid with h1 | h1
        · exact absurd (h1 ▸ hQ) hQx
        · exact ⟨id, h1, hQ⟩
      rcases ih hpw_rest hex2 with ⟨a, hhead, hmem, hq, hmin⟩
      refine ⟨a, ?_, List.mem_cons_of_mem _ hmem, hq, ?_⟩
      · simpa [List.filterMap_cons, hfind] using hhead
      · intro id hid hQ
        rcases List.mem_cons.mp hid with h1 | h1
        · exact absurd (h1 ▸ hQ) hQx
        · exact hmin id h1 hQ
    | some a0 =>
      have ha0id : a0.id = x := by
        have := List.find?_some hfind
        simpa using this
      by_cases hp1 : a0.disruptions.all (fun d =>
          !Time.is_overlapping (flight.departure_time, flight.arrival_time)
            (d.«from», d.«to»)) = true
      · by_cases hp2 : (!is_at_wrong_airport a0.disruptions flight.departure_time
            (st.locations a0.id)) = true
        · by_cases hp3 : (st.busy a0.id).all (fun iv =>
              !Time.is_overlapping (flight.departure_time, flight.arrival_time) iv) = true
          · -- head of the chain survives every filter
            refine ⟨a0, ?_, ha0id ▸ List.mem_cons_self x rest, ?_, ?_⟩
            · simp [List.filterMap_cons, List.filter_cons, hfind, hp1, hp2, hp3]
            · refine ⟨a0, ?_, hp1, by simpa using hp2, hp3⟩
              rw [ha0id]
              exact hfind
            · intro id hid _
              rcases List.mem_cons.mp hid with h1 | h1
              · rw [ha0id, h1]; exact idLe_refl x
              · rw [ha0id]; exact hx_le id h1
          · -- busy filter drops the head
            have hQx : ¬ (∃ a2, aircraftL.find? (fun x2 => x2.id == x) = some a2 ∧
                a2.disruptions.all (fun d =>
                  !Time.is_overlapping (flight.departure_time, flight.arrival_time)
                    (d.«from», d.«to»)) = true ∧
                is_at_wrong_airport a2.disruptions flight.departure_time
                  (st.locations a2.id) = false ∧
                (st.busy a2.id).all (fun iv =>
                  !Time.is_overlapping (flight.departure_time, flight.arrival_time) iv) =
                  true) := by
              rintro ⟨a2, ha2, _, _, hb⟩
              rw [hfind] at ha2
              cases ha2
              exact hp3 hb
            have hex2 : ∃ id ∈ rest, ∃ a, aircraftL.find? (fun x => x.id == id) = some a ∧
                a.disruptions.all (fun d =>
                  !Time.is_overlapping (flight.departure_time, flight.arrival_time)
                    (d.«from», d.«to»)) = true ∧
                is_at_wrong_airport a.disruptions flight.departure_time
                  (st.locations a.id) = false ∧
                (st.busy a.id).all (fun iv =>
                  !Time.is_overlapping (flight.departure_time, flight.arrival_time) iv) =
                  true := by
              rcases hex with ⟨id, hid, hQ⟩
              rcases List.mem_cons.mp hid with h1 | h1
              · exact absurd (h1 ▸ hQ) hQx
              · exact ⟨id, h1, hQ⟩
            rcases ih hpw_rest hex2 with ⟨a, hhead, hmem, hq, hmin⟩
            refine ⟨a, ?_, List.mem_cons_of_mem _ hmem, hq, ?_⟩
            · have hb3 : ((st.busy a0.id).all (fun iv =>
                  !Time.is_overlapping (flight.departure_time, flight.arrival_time) iv)) =
                  false := by simpa using hp3
              simpa [List.filterMap_cons, List.filter_cons, hfind, hp1, hp2, hb3]
                using hhead
            · intro id hid hQ
              rcases List.mem_cons.mp hid with h1 | h1
              · exact absurd (h1 ▸ hQ) hQx
              · exact hmin id h1 hQ
        · -- wrong-airport filter drops the head
          have hQx : ¬ (∃ a2, aircraftL.find? (fun x2 => x2.id == x) = some a2 ∧
              a2.disruptions.all (fun d =>
                !Time.is_overlapping (flight.departure_time, flight.arrival_time)
                  (d.«from», d.«to»)) = true ∧
              is_at_wrong_airport a2.disruptions flight.departure_time
                (st.locations a2.id) = false ∧
              (st.busy a2.id).all (fun iv =>
                !Time.is_overlapping (flight.departure_time, flight.arrival_time) iv) =
                true) := by
            rintro ⟨a2, ha2, _, hw, _⟩
            rw [hfind] at ha2
            cases ha2
            exact hp2 (by simpa using hw)
          have hex2 : ∃ id ∈ rest, ∃ a, aircraftL.find? (fun x => x.id == id) = some a ∧
              a.disruptions.all (fun d =>
                !Time.is_overlapping (flight.departure_time, flight.arrival_time)
                  (d.«from», d.«to»)) = true ∧
              is_at_wrong_airport a.disruptions flight.departure_time
                (st.locations a.id) = false ∧
              (st.busy a.id).all (fun iv =>
                !Time.is_overlapping (flight.departure_time, flight.arrival_time) iv) =
                true := by
            rcases hex with ⟨id, hid, hQ⟩
            rcases List.mem_cons.mp hid with h1 | h1
            · exact absurd (h1 ▸ hQ) hQx
            · exact ⟨id, h1, hQ⟩
          rcases ih hpw_rest hex2 with ⟨a, hhead, hmem, hq, hmin⟩
          refine ⟨a, ?_, List.mem_cons_of_mem _ hmem, hq, ?_⟩
          · have hb2 : (!is_at_wrong_airport a0.disruptions flight.departure_time
                (st.locations a0.id)) = false := by simpa using hp2
            simpa [List.filterMap_cons, List.filter_cons, hfind, hp1, hb2]
              using hhead
          · intro id hid hQ
            rcases List.mem_cons.mp hid with h1 | h1
            · exact absurd (h1 ▸ hQ) hQx
            · exact hmin id h1 hQ
      · -- maintenance filter drops the head
        have hQx : ¬ (∃ a2, aircraftL.find? (fun x2 => x2.id == x) = some a2 ∧
            a2.disruptions.all (fun d =>
              !Time.is_overlapping (flight.departure_time, flight.arrival_time)
                (d.«from», d.«to»)) = true ∧
            is_at_wrong_airport a2.disruptions flight.departure_time
              (st.locations a2.id) = false ∧
            (st.busy a2.id).all (fun iv =>
              !Time.is_overlapping (flight.departure_time, flight.arrival_time) iv) =
              true) := by
          rintro ⟨a2, ha2, hm, _, _⟩
          rw [hfind] at ha2
          cases ha2
          exact hp1 hm
        have hex2 : ∃ id ∈ rest, ∃ a, aircraftL.find? (fun x => x.id == id) = some a ∧
            a.disruptions.all (fun d =>
              !Time.is_overlapping (flight.departure_time, flight.arrival_time)
                (d.«from», d.«to»)) = true ∧
            is_at_wrong_airport a.disruptions flight.departure_time
              (st.locations a.id) = false ∧
            (st.busy a.id).all (fun iv =>
              !Time.is_overlapping (flight.departure_time, flight.arrival_time) iv) =
              true := by
          rcases hex with ⟨id, hid, hQ⟩
          rcases List.mem_cons.mp hid with h1 | h1
          · exact absurd (h1 ▸ hQ) hQx
          · exact ⟨id, h1, hQ⟩
        rcases ih hpw_rest hex2 with ⟨a, hhead, hmem, hq, hmin⟩
        refine ⟨a, ?_, List.mem_cons_of_mem _ hmem, hq, ?_⟩
        · have hb1 : (a0.disruptions.all (fun d =>
              !Time.is_overlapping (flight.departure_time, flight.arrival_time)
                (d.«from», d.«to»))) = false := by simpa using hp1
          simpa [List.filterMap_cons, List.filter_cons, hfind, hb1]
            using hhead
        · intro id hid hQ
          rcases List.mem_cons.mp hid with h1 | h1
          · exact absurd (h1 ▸ hQ) hQx
          · exact hmin id h1 hQ

/-- C4: whenever `assign` processes an unscheduled flight and some aircraft
in the bucket at the flight's origin qualifies (no maintenance overlap, not
at the wrong airport, no busy overlap, airports not curfewed), the chosen
aircraft is the qualifying one with the lexicographically smallest id, and
the flight is bound to it (first conjunct).  The buckets `assign` selects
from are sorted ascending by aircraft id: initially (second conjunct) and
after every per-flight update (third conjunct), so this is exactly the
situation of every step of `assign`. -/
theorem assign_binds_lex_smallest :
    (∀ (aircraftL : List Aircraft) (airports : List Airport) (st : AssignSt)
        (flight : Flight) (rest : List Flight),
      (st.by_airport flight.origin_id).Pairwise (fun a b => idLe a b = true) →
      flight.status.is_unscheduled = true →
      (∃ id ∈ st.by_airport flight.origin_id,
        assign_qualifies aircraftL airports st flight id) →
      ∃ a, chosen_aircraft aircraftL airports st flight = some a ∧
        a.id ∈ st.by_airport flight.origin_id ∧
        assign_qualifies aircraftL airports st flight a.id ∧
        (∀ id ∈ st.by_airport flight.origin_id,
          assign_qualifies aircraftL airports st flight id → idLe a.id id = true) ∧
        (assign_go aircraftL airports (flight :: rest) st).1 =
          { flight with aircraft_id := some a.id, status := .Scheduled } ::
            (assign_go aircraftL airports rest (assign_update airports st flight a)).1) ∧
    (∀ (aircraftL : List Aircraft) (airports : List Airport) (flights : List Flight)
        (ap : AirportId),
      (assign_buckets
        (List.insertionSort (fun a b : String => idLe a b = true)
          (aircraftL.map (fun a => a.id)))
        (assign_locations aircraftL airports flights) ap).Pairwise
        (fun a b => idLe a b = true)) ∧
    (∀ (airports : List Airport) (st : AssignSt) (flight : Flight) (a : Aircraft),
      (∀ ap, (st.by_airport ap).Pairwise (fun a b => idLe a b = true)) →
      ∀ ap, ((assign_update airports st flight a).by_airport ap).Pairwise
        (fun a b => idLe a b = true)) := by
  refine ⟨?_, ?_, ?_⟩
  · intro aircraftL airports st flight rest hsorted huns hex
    have hopen : assign_airport_open airports flight = true := by
      rcases hex with ⟨id, _, hq⟩
      exact hq.2
    have hex2 : ∃ id ∈ st.by_airport flight.origin_id, ∃ a,
        aircraftL.find? (fun x => x.id == id) = some a ∧
        a.disruptions.all (fun d =>
          !Time.is_overlapping (flight.departure_time, flight.arrival_time)
            (d.«from», d.«to»)) = true ∧
        is_at_wrong_airport a.disruptions flight.departure_time
          (st.locations a.id) = false ∧
        (st.busy a.id).all (fun iv =>
          !Time.is_overlapping (flight.departure_time, flight.arrival_time) iv) = true := by
      rcases hex with ⟨id, hid, hq⟩
      exact ⟨id, hid, hq.1⟩
    rcases chosen_chain_min aircraftL airports st flight
      (st.by_airport flight.origin_id) hsorted hex2 with ⟨a, hhead, hmem, hq, hmin⟩
    have hch : chosen_aircraft aircraftL airports st flight = some a := by
      unfold chosen_aircraft
      rw [find?_head?_of_true _ _ (fun _ => hopen)]
      exact hhead
    refine ⟨a, hch, hmem, ⟨hq, hopen⟩, ?_, ?_⟩
    · intro id hid hqid
      exact hmin id hid hqid.1
    · unfold assign_go
      simp only [huns, hch, if_true]
      rw [← assign_go.eq_def]
  · intro aircraftL airports flights ap
    rw [assign_buckets_apply]
    exact (List.sorted_insertionSort _ _).filter _
  · intro airports st flight a h ap
    unfold assign_update
    simp only []
    by_cases h1 : (ap == flight.origin_id) = true
    · rw [if_pos h1]
      by_cases h2 : (flight.origin_id == flight.destination_id) = true
      · rw [if_pos h2]
        exact (List.sorted_insertionSort _ _).filter _
      · rw [if_neg h2]
        exact (h flight.origin_id).filter _
    · rw [if_neg h1]
      by_cases h2 : (ap == flight.destination_id) = true
      · rw [if_pos h2]
        exact List.sorted_insertionSort _ _
      · rw [if_neg h2]
        exact h ap

theorem assign_binds_lex_smallest_witness :
    ∃ a, chosen_aircraft fx_two_aircraft fixture_airports fx_two_aircraft_st
        fx_flight_krk = some a ∧
      a.id ∈ fx_two_aircraft_st.by_airport fx_flight_krk.origin_id ∧
      assign_qualifies fx_two_aircraft fixture_airports fx_two_aircraft_st
        fx_flight_krk a.id ∧
      (∀ id ∈ fx_two_aircraft_st.by_airport fx_flight_krk.origin_id,
        assign_qualifies fx_two_aircraft fixture_airports fx_two_aircraft_st
          fx_flight_krk id → idLe a.id id = true) ∧
      (assign_go fx_two_aircraft fixture_airports [fx_flight_krk]
          fx_two_aircraft_st).1 =
        { fx_flight_krk with aircraft_id := some a.id, status := .Scheduled } ::
          (assign_go fx_two_aircraft fixture_airports []
            (assign_update fixture_airports fx_two_aircraft_st fx_flight_krk a)).1 :=
  assign_binds_lex_smallest.1 fx_two_aircraft fixture_airports fx_two_aircraft_st
    fx_flight_krk [] (by decide) (by decide)
    ⟨"AC_A", by decide,
      ⟨⟨"AC_A", "KRK", []⟩, by decide, by decide, by decide, by decide⟩, by decide⟩

theorem last_index_of_eq_none {fid : FlightId} :
    ∀ {ids : List FlightId}, fid ∉ ids → last_index_of fid ids = none := by
  intro ids
  induction ids with
  | nil => intro _; rfl
  | cons x rest ih =>
    intro h
    unfold last_index_of
    rw [ih (fun hc => h (List.mem_cons_of_mem _ hc))]
    rw [if_neg (by simpa using fun hc : x = fid => h (hc ▸ List.mem_cons_self x rest))]

theorem nodup_flights_index :
    ∀ (fs : List Flight) (j : Nat), (fs.map (fun f => f.id)).Nodup →
      j < fs.length → flights_index fs ((getF fs j).id) = some j := by
  intro fs
  induction fs with
  | nil => intro j _ hj; simp at hj
  | cons f rest ih =>
    intro j hnd hj
    have hnd1 : (f.id :: rest.map (fun g => g.id)).Nodup := hnd
    rcases List.nodup_cons.mp hnd1 with ⟨hnotmem, hnd_rest⟩
    cases j with
    | zero =>
      show last_index_of f.id (f.id :: rest.map (fun g => g.id)) = some 0
      unfold last_index_of
      rw [last_index_of_eq_none hnotmem]
      simp
    | succ k =>
      have hk : k < rest.length := by simpa using Nat.lt_of_succ_lt_succ hj
      have hrec : last_index_of (getF rest k).id
          (rest.map (fun g => g.id)) = some k := ih k hnd_rest hk
      have hid : (getF (f :: rest) (k + 1)).id = (getF rest k).id := rfl
      rw [hid]
      show last_index_of (getF rest k).id
        (f.id :: rest.map (fun g => g.id)) = some (k + 1)
      unfold last_index_of
      rw [hrec]

theorem getD_map_dep :
    ∀ (l : List Flight) (i : Nat), i < l.length →
      (l.map (fun f => f.departure_time)).getD i 0 = (getF l i).departure_time := by
  intro l
  induction l with
  | nil => intro i h; simp at h
  | cons f rest ih =>
    intro i h
    cases i with
    | zero => rfl
    | succ j =>
      have := ih j (by simpa using Nat.lt_of_succ_lt_succ h)
      simpa [getF] using this

theorem times_sorted_step :
    ∀ {l : List Nat}, times_sorted l = true → ∀ i, i + 1 < l.length →
      l.getD i 0 ≤ l.getD (i + 1) 0
  | [], _, i, h => by simp at h
  | [_], _, i, h => by simp at h
  | a :: b :: rest, h, i, hlen => by
    rw [show times_sorted (a :: b :: rest) =
      (decide (a ≤ b) && times_sorted (b :: rest)) from rfl] at h
    simp only [Bool.and_eq_true, decide_eq_true_eq] at h
    rcases h with ⟨h1, h2⟩
    cases i with
    | zero => simpa using h1
    | succ k =>
      have := times_sorted_step h2 k (by simpa using Nat.lt_of_succ_lt_succ hlen)
      simpa using this

theorem times_sorted_mono {l : List Nat} (h : times_sorted l = true) :
    ∀ (j k : Nat), j ≤ k → k < l.length → l.getD j 0 ≤ l.getD k 0 := by
  intro j k
  induction k with
  | zero =>
    intro hjk _
    have hj0 : j = 0 := Nat.le_zero.mp hjk
    subst hj0
    exact Nat.le_refl _
  | succ k2 ih =>
    intro hjk hk
    rcases Nat.lt_or_ge j (k2 + 1) with hlt | hge
    · have hjk2 : j ≤ k2 := Nat.lt_succ_iff.mp hlt
      have hk2 : k2 < l.length := Nat.lt_of_succ_lt hk
      exact Nat.le_trans (ih hjk2 hk2) (times_sorted_step h k2 hk)
    · have hj : j = k2 + 1 := Nat.le_antisymm hjk hge
      subst hj
      exact Nat.le_refl _

theorem curfew_hits_elim (broken : AircraftId → Option Nat) (f : Flight)
    (ac : AircraftId) (hhit : curfew_hits broken f = true)
    (hac : f.aircraft_id = some ac) :
    f.status.is_unscheduled = false ∧
      ∃ t, broken ac = some t ∧ f.departure_time ≥ t := by
  unfold curfew_hits at hhit
  rw [hac] at hhit
  have hhit2 : (!f.status.is_unscheduled &&
      (match broken ac with
       | some time => decide (f.departure_time ≥ time)
       | none => false)) = true := hhit
  cases hb : broken ac with
  | none => rw [hb] at hhit2; simp at hhit2
  | some t =>
    rw [hb] at hhit2
    simp only [Bool.and_eq_true, Bool.not_eq_true', decide_eq_true_eq] at hhit2
    exact ⟨hhit2.1, t, rfl, hhit2.2⟩

theorem curfew_mark_cons_skip (broken : AircraftId → Option Nat) (f : Flight)
    (rest : List Flight) (counter : AircraftId → Option Nat)
    (hfh : curfew_hits broken f = false) :
    curfew_mark broken (f :: rest) counter = curfew_mark broken rest counter := by
  rw [curfew_mark.eq_2]
  cases hsu : f.status.is_unscheduled with
  | true => rw [if_pos rfl]
  | false =>
    rw [if_neg (by simp)]
    cases hfa : f.aircraft_id with
    | none => rfl
    | some ac0 =>
      show (match broken ac0 with
        | none => curfew_mark broken rest counter
        | some time =>
          if f.departure_time ≥ time then
            let cnt : Nat := match counter ac0 with | some e => e + 1 | none => 0
            let counter2 := fun q => if (q == ac0) = true then some cnt else counter q
            let reason : UnscheduledReason :=
              if (match counter2 ac0 with | some x => x == 0 | none => true) = true then
                UnscheduledReason.AirportCurfew
              else UnscheduledReason.BrokenChain
            (f.id, reason) :: curfew_mark broken rest counter2
          else curfew_mark broken rest counter) = curfew_mark broken rest counter
      cases hb : broken ac0 with
      | none => rfl
      | some t =>
        have hdep : ¬ f.departure_time ≥ t := by
          unfold curfew_hits at hfh
          rw [hfa] at hfh
          have hfh2 : (!f.status.is_unscheduled &&
              (match broken ac0 with
               | some time => decide (f.departure_time ≥ time)
               | none => false)) = false := hfh
          rw [hb, hsu] at hfh2
          simpa using hfh2
        show (if f.departure_time ≥ t then
            let cnt : Nat := match counter ac0 with | some e => e + 1 | none => 0
            let counter2 := fun q => if (q == ac0) = true then some cnt else counter q
            let reason : UnscheduledReason :=
              if (match counter2 ac0 with | some x => x == 0 | none => true) = true then
                UnscheduledReason.AirportCurfew
              else UnscheduledReason.BrokenChain
            (f.id, reason) :: curfew_mark broken rest counter2
          else curfew_mark broken rest counter) = curfew_mark broken rest counter
        rw [if_neg hdep]

theorem curfew_mark_cons_hit (broken : AircraftId → Option Nat) (f : Flight)
    (rest : List Flight) (counter : AircraftId → Option Nat) (ac0 : AircraftId)
    (t : Nat) (hsu : f.status.is_unscheduled = false)
    (hfa : f.aircraft_id = some ac0) (hb : broken ac0 = some t)
    (hdep : f.departure_time ≥ t) :
    curfew_mark broken (f :: rest) counter =
      (f.id,
        if (match counter ac0 with | some e => e + 1 | none => 0) == 0 then
          UnscheduledReason.AirportCurfew
        else UnscheduledReason.BrokenChain) ::
        curfew_mark broken rest
          (fun q => if q == ac0 then
            some (match counter ac0 with | some e => e + 1 | none => 0)
          else counter q) := by
  rw [curfew_mark.eq_2]
  rw [if_neg (by simp [hsu]), hfa]
  show (match broken ac0 with
    | none => curfew_mark broken rest counter
    | some time =>
      if f.departure_time ≥ time then
        let cnt : Nat := match counter ac0 with | some e => e + 1 | none => 0
        let counter2 := fun q => if (q == ac0) = true then some cnt else counter q
        let reason : UnscheduledReason :=
          if (match counter2 ac0 with | some x => x == 0 | none => true) = true then
            UnscheduledReason.AirportCurfew
          else UnscheduledReason.BrokenChain
        (f.id, reason) :: curfew_mark broken rest counter2
      else curfew_mark broken rest counter) = _
  rw [hb]
  show (if f.departure_time ≥ t then
      let cnt : Nat := match counter ac0 with | some e => e + 1 | none => 0
      let counter2 := fun q => if (q == ac0) = true then some cnt else counter q
      let reason : UnscheduledReason :=
        if (match counter2 ac0 with | some x => x == 0 | none => true) = true then
          UnscheduledReason.AirportCurfew
        else UnscheduledReason.BrokenChain
      (f.id, reason) :: curfew_mark broken rest counter2
    else curfew_mark broken rest counter) = _
  rw [if_pos hdep]
  simp [beq_self_eq_true]

theorem curfew_mark_ids (broken : AircraftId → Option Nat) :
    ∀ (l : List Flight) (counter : AircraftId → Option Nat),
      (curfew_mark broken l counter).map Prod.fst =
        (l.filter (curfew_hits broken)).map (fun f => f.id) := by
  intro l
  induction l with
  | nil => intro counter; rfl
  | cons f rest ih =>
    intro counter
    by_cases hfh : curfew_hits broken f = true
    · cases hfa : f.aircraft_id with
      | none =>
        exfalso
        unfold curfew_hits at hfh
        rw [hfa] at hfh
        simp at hfh
      | some ac0 =>
        rcases curfew_hits_elim broken f ac0 hfh hfa with ⟨hsu, t, hb, hdep⟩
        rw [curfew_mark_cons_hit broken f rest counter ac0 t hsu hfa hb hdep]
        rw [List.filter_cons_of_pos hfh]
        simp [ih]
    · rw [curfew_mark_cons_skip broken f rest counter (by simpa using hfh)]
      rw [List.filter_cons_of_neg (by simpa using hfh)]
      exact ih counter

theorem curfew_mark_mem_first (broken : AircraftId → Option Nat) :
    ∀ (l : List Flight) (counter : AircraftId → Option Nat) (j : Nat)
      (ac : AircraftId),
      j < l.length →
      curfew_hits broken (getF l j) = true →
      (getF l j).aircraft_id = some ac →
      counter ac = none →
      (∀ k, k < j → ¬(curfew_hits broken (getF l k) = true ∧
        (getF l k).aircraft_id = some ac)) →
      ((getF l j).id, UnscheduledReason.AirportCurfew) ∈ curfew_mark broken l counter := by
  intro l
  induction l with
  | nil => intro counter j ac hj; simp at hj
  | cons f rest ih =>
    intro counter j ac hj hhit hac hcnt hne
    by_cases hfh : curfew_hits broken f = true
    · cases hfa : f.aircraft_id with
      | none =>
        exfalso
        unfold curfew_hits at hfh
        rw [hfa] at hfh
        simp at hfh
      | some ac0 =>
        rcases curfew_hits_elim broken f ac0 hfh hfa with ⟨hsu, t0, hb0, hdep0⟩
        rw [curfew_mark_cons_hit broken f rest counter ac0 t0 hsu hfa hb0 hdep0]
        cases j with
        | zero =>
          have hacs : ac0 = ac := by
            have h0 : (getF (f :: rest) 0).aircraft_id = some ac := hac
            rw [getF_cons_zero] at h0
            rw [hfa] at h0
            exact Option.some.inj h0
          subst hacs
          rw [hcnt]
          have hid : (getF (f :: rest) 0).id = f.id := rfl
          rw [hid]
          simp
        | succ j2 =>
          by_cases hacs : ac0 = ac
          · exfalso
            refine hne 0 (Nat.succ_pos _) ⟨?_, ?_⟩
            · rw [getF_cons_zero]; exact hfh
            · rw [getF_cons_zero, hfa, hacs]
          · refine List.mem_cons_of_mem _ ?_
            have hjr : j2 < rest.length := by simpa using Nat.lt_of_succ_lt_succ hj
            have hhit2 : curfew_hits broken (getF rest j2) = true := hhit
            have hac2 : (getF rest j2).aircraft_id = some ac := hac
            have hcnt2 : (fun q => if q == ac0 then
                some (match counter ac0 with | some e => e + 1 | none => 0)
              else counter q) ac = none := by
              have hne0 : (ac == ac0) = false := by
                simpa using fun hc : ac = ac0 => hacs hc.symm
              simp [hne0, hcnt]
            refine ih _ j2 ac hjr hhit2 hac2 hcnt2 ?_
            intro k hk hcontra
            exact hne (k + 1) (Nat.succ_lt_succ hk) hcontra
    · rw [curfew_mark_cons_skip broken f rest counter (by simpa using hfh)]
      cases j with
      | zero =>
        exfalso
        apply hfh
        have h0 : curfew_hits broken (getF (f :: rest) 0) = true := hhit
        rw [getF_cons_zero] at h0
        exact h0
      | succ j2 =>
        have hjr : j2 < rest.length := by simpa using Nat.lt_of_succ_lt_succ hj
        refine ih counter j2 ac hjr hhit hac hcnt ?_
        intro k hk hcontra
        exact hne (k + 1) (Nat.succ_lt_succ hk) hcontra

theorem curfew_mark_mem_later (broken : AircraftId → Option Nat) :
    ∀ (l : List Flight) (counter : AircraftId → Option Nat) (j : Nat)
      (ac : AircraftId),
      j < l.length →
      curfew_hits broken (getF l j) = true →
      (getF l j).aircraft_id = some ac →
      (counter ac ≠ none ∨ ∃ k, k < j ∧ curfew_hits broken (getF l k) = true ∧
        (getF l k).aircraft_id = some ac) →
      ((getF l j).id, UnscheduledReason.BrokenChain) ∈ curfew_mark broken l counter := by
  intro l
  induction l with
  | nil => intro counter j ac hj; simp at hj
  | cons f rest ih =>
    intro counter j ac hj hhit hac hcond
    by_cases hfh : curfew_hits broken f = true
    · cases hfa : f.aircraft_id with
      | none =>
        exfalso
        unfold curfew_hits at hfh
        rw [hfa] at hfh
        simp at hfh
      | some ac0 =>
        rcases curfew_hits_elim broken f ac0 hfh hfa with ⟨hsu, t0, hb0, hdep0⟩
        rw [curfew_mark_cons_hit broken f rest counter ac0 t0 hsu hfa hb0 hdep0]
        cases j with
        | zero =>
          have hacs : ac0 = ac := by
            have h0 : (getF (f :: rest) 0).aircraft_id = some ac := hac
            rw [getF_cons_zero] at h0
            rw [hfa] at h0
            exact Option.some.inj h0
          subst hacs
          have hsome : ∃ e, counter ac0 = some e := by
            rcases hcond with h1 | h1
            · cases hco : counter ac0 with
              | none => exact absurd hco h1
              | some e => exact ⟨e, rfl⟩
            · rcases h1 with ⟨k, hk, _⟩
              exact absurd hk (Nat.not_lt_zero k)
          rcases hsome with ⟨e, he⟩
          rw [he]
          have hid : (getF (f :: rest) 0).id = f.id := rfl
          rw [hid]
          simp
        | succ j2 =>
          refine List.mem_cons_of_mem _ ?_
          have hjr : j2 < rest.length := by simpa using Nat.lt_of_succ_lt_succ hj
          have hhit2 : curfew_hits broken (getF rest j2) = true := hhit
          have hac2 : (getF rest j2).aircraft_id = some ac := hac
          refine ih _ j2 ac hjr hhit2 hac2 ?_
          by_cases hacs : ac0 = ac
          · left
            subst hacs
            simp
          · rcases hcond with h1 | h1
            · left
              have hne0 : (ac == ac0) = false := by
                simpa using fun hc : ac = ac0 => hacs hc.symm
              simpa [hne0] using h1
            · rcases h1 with ⟨k, hk, hkh, hka⟩
              cases k with
              | zero =>
                exfalso
                rw [getF_cons_zero] at hka
                rw [hfa] at hka
                exact hacs (Option.some.inj hka)
              | succ k2 =>
                right
                exact ⟨k2, Nat.lt_of_succ_lt_succ hk, hkh, hka⟩
    · rw [curfew_mark_cons_skip broken f rest counter (by simpa using hfh)]
      cases j with
      | zero =>
        exfalso
        apply hfh
        have h0 : curfew_hits broken (getF (f :: rest) 0) = true := hhit
        rw [getF_cons_zero] at h0
        exact h0
      | succ j2 =>
        have hjr : j2 < rest.length := by simpa using Nat.lt_of_succ_lt_succ hj
        refine ih counter j2 ac hjr hhit hac ?_
        rcases hcond with h1 | h1
        · left; exact h1
        · rcases h1 with ⟨k, hk, hkh, hka⟩
          cases k with
          | zero =>
            exfalso
            apply hfh
            rw [getF_cons_zero] at hkh
            exact hkh
          | succ k2 =>
            right
            exact ⟨k2, Nat.lt_of_succ_lt_succ hk, hkh, hka⟩

theorem unschedule_length (fs : List Flight) (fid : FlightId)
    (r : UnscheduledReason) : (unschedule fs fid r).length = fs.length := by
  unfold unschedule
  cases hidx : flights_index fs fid with
  | none => rfl
  | some idx => exact List.length_set fs idx _

theorem foldl_unschedule_set :
    ∀ (entries : List (FlightId × UnscheduledReason)) (fs : List Flight) (j : Nat)
      (r : UnscheduledReason),
      j < fs.length →
      (fs.map (fun f => f.id)).Nodup →
      (entries.map Prod.fst).Nodup →
      ((getF fs j).id, r) ∈ entries →
      getF (entries.foldl (fun fs e => unschedule fs e.1 e.2) fs) j =
        { getF fs j with status := .Unscheduled r, aircraft_id := none } := by
  intro entries
  induction entries with
  | nil => intro fs j r _ _ _ hmem; simp at hmem
  | cons e rest ih =>
    intro fs j r hj hnodup hids hmem
    by_cases he : e.1 = (getF fs j).id
    · have hnm : e.1 ∉ rest.map Prod.fst := (List.nodup_cons.mp hids).1
      have her : e = ((getF fs j).id, r) := by
        rcases List.mem_cons.mp hmem with h1 | h1
        · exact h1.symm
        · exfalso
          apply hnm
          rw [he]
          exact List.mem_map_of_mem Prod.fst h1
      have hfi : flights_index fs e.1 = some j := by
        rw [he]
        exact nodup_flights_index fs j hnodup hj
      have hstep : unschedule fs e.1 e.2 =
          fs.set j { getF fs j with
            status := .Unscheduled e.2, aircraft_id := none } := by
        unfold unschedule
        rw [hfi]
      have hget : getF (fs.set j { getF fs j with
          status := .Unscheduled e.2, aircraft_id := none }) j =
          { getF fs j with status := .Unscheduled e.2, aircraft_id := none } :=
        getD_set_self fs j _ hj
      rw [List.foldl_cons, hstep]
      rw [foldl_unschedule_getF_ne rest _ j ?hne]
      · rw [hget]
        rw [show e.2 = r from congrArg Prod.snd her]
      case hne =>
        intro e2 he2
        rw [hget]
        show e2.1 ≠ (getF fs j).id
        intro hc
        apply hnm
        rw [he, ← hc]
        exact List.mem_map_of_mem Prod.fst he2
    · have hne2 : (getF fs j).id ≠ e.1 := fun hc => he hc.symm
      have hstep : getF (unschedule fs e.1 e.2) j = getF fs j :=
        unschedule_getF_ne fs e.1 e.2 j hne2
      have hlen : (unschedule fs e.1 e.2).length = fs.length :=
        unschedule_length fs e.1 e.2
      have hmapid : (unschedule fs e.1 e.2).map (fun f => f.id) =
          fs.map (fun f => f.id) :=
        map_unschedule (fun f => f.id) (fun _ _ => rfl) fs e.1 e.2
      have hmem2 : ((getF (unschedule fs e.1 e.2) j).id, r) ∈ rest := by
        rw [hstep]
        rcases List.mem_cons.mp hmem with h1 | h1
        · exact absurd (congrArg Prod.fst h1.symm) he
        · exact h1
      rw [List.foldl_cons]
      have := ih (unschedule fs e.1 e.2) j r
        (by rw [hlen]; exact hj)
        (by rw [hmapid]; exact hnodup)
        ((List.nodup_cons.mp hids).2)
        hmem2
      rw [this, hstep]

/-- C7: in `apply_curfew` for a known airport (with unique flight ids and a
vector sorted by departure, as `new` establishes): every non-unscheduled
flight of an aircraft with a break point (packaged as `curfew_hits`: not
unscheduled, and departing at or after its aircraft's break time in the
`curfew_broken_map`) ends with `aircraft_id` cleared and status
`Unscheduled` — reason `AirportCurfew` for the first such flight of its
aircraft (`first_hit`), `BrokenChain` for every subsequent one; under the
sortedness hypothesis, the first hit departs no later than any other hit
flight of the same aircraft. -/
theorem curfew_unschedules_from_break_point (s : Schedule)
    (airport_id : AirportId) (t1 t2 : Nat) (ap : Airport)
    (hfound : s.airports.find? (fun a => a.id == airport_id) = some ap)
    (hnodup : (s.flights.map (fun f => f.id)).Nodup)
    (hsorted : flights_sorted_by_departure s.flights = true)
    (j : Nat) (hj : j < s.flights.length) (ac : AircraftId)
    (hhit : curfew_hits (curfew_broken_map s.flights airport_id
      (ap.disruptions ++ [⟨t1, t2⟩])) (getF s.flights j) = true)
    (hac : (getF s.flights j).aircraft_id = some ac) :
    (getF (s.apply_curfew airport_id t1 t2).flights j).aircraft_id = none ∧
    (getF (s.apply_curfew airport_id t1 t2).flights j).status =
      .Unscheduled
        (if first_hit (curfew_broken_map s.flights airport_id
            (ap.disruptions ++ [⟨t1, t2⟩])) s.flights j = true
         then .AirportCurfew else .BrokenChain) ∧
    (first_hit (curfew_broken_map s.flights airport_id
        (ap.disruptions ++ [⟨t1, t2⟩])) s.flights j = true →
      ∀ k, k < s.flights.length →
        curfew_hits (curfew_broken_map s.flights airport_id
          (ap.disruptions ++ [⟨t1, t2⟩])) (getF s.flights k) = true →
        (getF s.flights k).aircraft_id = some ac →
        (getF s.flights j).departure_time ≤ (getF s.flights k).departure_time) := by
  have hflights : (s.apply_curfew airport_id t1 t2).flights =
      (curfew_mark (curfew_broken_map s.flights airport_id
          (ap.disruptions ++ [⟨t1, t2⟩])) s.flights (fun _ => none)).foldl
        (fun fs e => unschedule fs e.1 e.2) s.flights := by
    unfold Schedule.apply_curfew
    rw [hfound]
  have hids_eq := curfew_mark_ids (curfew_broken_map s.flights airport_id
    (ap.disruptions ++ [⟨t1, t2⟩])) s.flights (fun _ => none)
  have hsub : ((s.flights.filter (curfew_hits (curfew_broken_map s.flights airport_id
      (ap.disruptions ++ [⟨t1, t2⟩])))).map (fun f => f.id)).Sublist
      (s.flights.map (fun f => f.id)) :=
    (List.filter_sublist _).map _
  have hnodup_entries : ((curfew_mark (curfew_broken_map s.flights airport_id
      (ap.disruptions ++ [⟨t1, t2⟩])) s.flights (fun _ => none)).map Prod.fst).Nodup := by
    rw [hids_eq]
    exact List.Nodup.sublist hsub hnodup
  have hne_of_first : first_hit (curfew_broken_map s.flights airport_id
      (ap.disruptions ++ [⟨t1, t2⟩])) s.flights j = true →
      ∀ k, k < j → ¬(curfew_hits (curfew_broken_map s.flights airport_id
        (ap.disruptions ++ [⟨t1, t2⟩])) (getF s.flights k) = true ∧
        (getF s.flights k).aircraft_id = some ac) := by
    intro hf k hk hcontra
    rcases hcontra with ⟨hkh, hka⟩
    have hall := List.all_eq_true.mp hf (k) (List.mem_range.mpr hk)
    rw [hkh, hka, hac] at hall
    simp at hall
  by_cases hf : first_hit (curfew_broken_map s.flights airport_id
      (ap.disruptions ++ [⟨t1, t2⟩])) s.flights j = true
  · have hmem := curfew_mark_mem_first (curfew_broken_map s.flights airport_id
      (ap.disruptions ++ [⟨t1, t2⟩])) s.flights (fun _ => none) j ac hj hhit hac rfl
      (hne_of_first hf)
    have hset := foldl_unschedule_set
      (curfew_mark (curfew_broken_map s.flights airport_id
        (ap.disruptions ++ [⟨t1, t2⟩])) s.flights (fun _ => none))
      s.flights j .AirportCurfew hj hnodup hnodup_entries hmem
    rw [hflights, hset]
    refine ⟨rfl, ?_, ?_⟩
    · rw [if_pos hf]
    · intro _ k hk hkh hka
      have hjk : j ≤ k := by
        by_contra hklt
        exact hne_of_first hf k (Nat.lt_of_not_le hklt) ⟨hkh, hka⟩
      have hmono := times_sorted_mono hsorted j k hjk
        (by simpa using hk)
      rw [getD_map_dep s.flights j hj, getD_map_dep s.flights k hk] at hmono
      exact hmono
  · have hex : ∃ k, k < j ∧ curfew_hits (curfew_broken_map s.flights airport_id
        (ap.disruptions ++ [⟨t1, t2⟩])) (getF s.flights k) = true ∧
        (getF s.flights k).aircraft_id = some ac := by
      by_contra hno
      apply hf
      apply List.all_eq_true.mpr
      intro k hkr
      have hk : k < j := List.mem_range.mp hkr
      by_cases hkh : curfew_hits (curfew_broken_map s.flights airport_id
          (ap.disruptions ++ [⟨t1, t2⟩])) (getF s.flights k) = true
      · have hbeqf : ((getF s.flights k).aircraft_id ==
            (getF s.flights j).aircraft_id) = false := by
          by_contra hbc
          have hbeq : ((getF s.flights k).aircraft_id ==
              (getF s.flights j).aircraft_id) = true := by
            cases hb2 : ((getF s.flights k).aircraft_id ==
                (getF s.flights j).aircraft_id) with
            | true => rfl
            | false => exact absurd hb2 hbc
          apply hno
          refine ⟨k, hk, hkh, ?_⟩
          rw [hac] at hbeq
          exact eq_of_beq hbeq
        simp [hkh, hbeqf]
      · simp [show curfew_hits (curfew_broken_map s.flights airport_id
          (ap.disruptions ++ [⟨t1, t2⟩])) (getF s.flights k) = false from by
            simpa using hkh]
    have hmem := curfew_mark_mem_later (curfew_broken_map s.flights airport_id
      (ap.disruptions ++ [⟨t1, t2⟩])) s.flights (fun _ => none) j ac hj hhit hac
      (Or.inr hex)
    have hset := foldl_unschedule_set
      (curfew_mark (curfew_broken_map s.flights airport_id
        (ap.disruptions ++ [⟨t1, t2⟩])) s.flights (fun _ => none))
      s.flights j .BrokenChain hj hnodup hnodup_entries hmem
    rw [hflights, hset]
    refine ⟨rfl, ?_, ?_⟩
    · rw [if_neg hf]
    · intro hf2
      exact absurd hf2 hf

theorem curfew_unschedules_from_break_point_witness :
    (getF (fx_curfew.apply_curfew "WAW" 450 550).flights 1).aircraft_id = none ∧
    (getF (fx_curfew.apply_curfew "WAW" 450 550).flights 1).status =
      .Unscheduled
        (if first_hit (curfew_broken_map fx_curfew.flights "WAW"
            [(⟨450, 550⟩ : Curfew)]) fx_curfew.flights 1 = true
         then .AirportCurfew else .BrokenChain) ∧
    (first_hit (curfew_broken_map fx_curfew.flights "WAW"
        [(⟨450, 550⟩ : Curfew)]) fx_curfew.flights 1 = true →
      ∀ k, k < fx_curfew.flights.length →
        curfew_hits (curfew_broken_map fx_curfew.flights "WAW"
          [(⟨450, 550⟩ : Curfew)]) (getF fx_curfew.flights k) = true →
        (getF fx_curfew.flights k).aircraft_id = some "PLANE_1" →
        (getF fx_curfew.flights 1).departure_time ≤
          (getF fx_curfew.flights k).departure_time) :=
  curfew_unschedules_from_break_point fx_curfew "WAW" 450 550 ⟨"WAW", 30, []⟩
    (by decide) (by decide) (by decide) 1 (by decide) "PLANE_1" (by decide) (by decide)
